import Mathlib

/-!
Shallow embedding of the OAuth authorization-broker core of
`mcp-line-supabase-template` (src/workers-oauth-utils.ts, the Hono
LINE-login handler, src/utils.ts, src/supabase-client.ts), together with
theorems settling the frozen claims about it.

Modelling conventions:
* Machine strings are Lean `String`s; the JS helpers the repository calls
  (`split`, `trim`, `lastIndexOf`, `slice`) are re-implemented over
  `List Char` with the same semantics for the single-character separators
  the source uses.
* Platform primitives the source merely calls (SHA-256, HMAC,
  `encodeURIComponent`/`decodeURIComponent`, `JSON.stringify`/`JSON.parse`,
  `btoa`/`atob`, `URLSearchParams` escaping) are fields of a `JsPrims`
  record; theorems state the facts about their outputs that the real
  primitives guarantee (hex output, round-trips) as explicit hypotheses.
  `decodeURIComponent` is partial (`Option`): `none` models the `URIError`
  it throws on a malformed percent-escape.
* Effects are explicit: the TTL key-value store is threaded as a value,
  thrown exceptions are `Except`, randomness (`crypto.randomUUID()`) is a
  parameter carrying the generated token.
* Implicit `Content-Type` headers added by the platform (`new Response`
  with a string body, Hono's `c.text`) are elided; headers written
  explicitly in the source are embedded.
-/

/-- JS truthiness of a `string | null | undefined` value: `null`/`undefined`
and the empty string are falsy. -/
def jsFalsy : Option String → Bool
  | none => true
  | some s => s == ""

/-- `l.split(c)` for a single-character separator, JS semantics
(`"".split(c) = [""]`, separators at the ends produce empty fields). -/
def splitOnCharL (c : Char) : List Char → List (List Char)
  | [] => [[]]
  | x :: xs =>
    let r := splitOnCharL c xs
    if x = c then [] :: r
    else
      match r with
      | y :: ys => (x :: y) :: ys
      | [] => [[x]]

/-- `vals.join(c)` over char lists. -/
def joinChar (c : Char) : List (List Char) → List Char
  | [] => []
  | [l] => l
  | l :: ls => l ++ c :: joinChar c ls

/-- JS `String.prototype.trim` (whitespace stripped from both ends),
over char lists. -/
def trimL (l : List Char) : List Char :=
  ((l.dropWhile Char.isWhitespace).reverse.dropWhile Char.isWhitespace).reverse

/-- JS object property assignment `r[k] = v` on a record represented as an
ordered key-value list: overwrite in place if the key exists, else append. -/
def setRecord (r : List (String × String)) (k v : String) : List (String × String) :=
  if r.any (fun p => p.1 == k) then r.map (fun p => if p.1 == k then (k, v) else p)
  else r ++ [(k, v)]

/-- JS property read `r[k]`, `none` for `undefined`. -/
def getRecord (r : List (String × String)) (k : String) : Option String :=
  (r.find? (fun p => p.1 == k)).map (fun p => p.2)

/-- `parseCookies` (workers-oauth-utils.ts:213): split the header on `";"`,
split each trimmed pair on `"="` into `[key, ...vals]`, and when the
untrimmed key is truthy assign `cookies[key.trim()] = vals.join("=").trim()`. -/
def parseCookies (cookieHeader : String) : List (String × String) :=
  (splitOnCharL ';' cookieHeader.toList).foldl
    (fun acc pairL =>
      match splitOnCharL '=' (trimL pairL) with
      | [] => acc
      | key :: vals =>
        if key ≠ [] then
          setRecord acc (String.mk (trimL key)) (String.mk (trimL (joinChar '=' vals)))
        else acc)
    []

/-- `OAuthError` (workers-oauth-utils.ts:19): an HTTP status plus message. -/
structure OAuthError where
  statusCode : Nat
  message : String
deriving DecidableEq

/-- A `Response`: status, body (empty string for a `null` body) and headers
in order. -/
structure ResponseM where
  status : Nat
  body : String
  headers : List (String × String)
deriving DecidableEq

deriving instance DecidableEq for Except

/-- `OAuthError.toResponse` (workers-oauth-utils.ts:26): body = message. -/
def OAuthError.toResponse (e : OAuthError) : ResponseM :=
  ⟨e.statusCode, e.message, []⟩

/-- Hono's `c.text(msg, status)` (implicit Content-Type elided). -/
def textResponse (msg : String) (status : Nat) : ResponseM :=
  ⟨status, msg, []⟩

/-- A `FormData` entry value: a string field or a `File`. -/
inductive FormVal where
  | str (s : String)
  | file
deriving DecidableEq

/-- `formData.get(k)`: first entry with the key, or `null`. -/
def formGet (form : List (String × FormVal)) (k : String) : Option FormVal :=
  (form.find? (fun p => p.1 == k)).map (fun p => p.2)

/-- `validateCSRFToken` (workers-oauth-utils.ts:31): the submitted
`csrf_token` must be a truthy string (else 400 "Missing CSRF token"), and
the `__Host-csrf` cookie must be truthy and equal to it (else 403
"CSRF token mismatch"). -/
def validateCSRFToken (form : List (String × FormVal)) (cookieHeader : String) :
    Except OAuthError Unit :=
  match formGet form "csrf_token" with
  | some (.str s) =>
    if s = "" then .error ⟨400, "Missing CSRF token"⟩
    else
      let cookieToken := getRecord (parseCookies cookieHeader) "__Host-csrf"
      if jsFalsy cookieToken ∨ cookieToken ≠ some s then .error ⟨403, "CSRF token mismatch"⟩
      else .ok ()
  | _ => .error ⟨400, "Missing CSRF token"⟩

/-- `generateCSRFProtection` (workers-oauth-utils.ts:10); the random token
from `crypto.randomUUID()` is passed in. -/
def generateCSRFProtection (token : String) : String × String :=
  (token, "__Host-csrf=" ++ token ++ "; HttpOnly; Secure; SameSite=Strict; Path=/")

/-- One record of the external TTL key-value store (`OAUTH_KV`). -/
structure KVEntry where
  key : String
  expiresAt : Nat
  value : String
deriving DecidableEq

/-- The external TTL store: a list of entries with unique keys. -/
abbrev KV := List KVEntry

/-- `kv.put(k, v, { expirationTtl: ttl })` at time `now`. -/
def kvPut (kv : KV) (now ttl : Nat) (k v : String) : KV :=
  ⟨k, now + ttl, v⟩ :: kv.filter (fun e => e.key ≠ k)

/-- `kv.get(k)` at time `now`: `null` when absent or past its expiry. -/
def kvGet (kv : KV) (now : Nat) (k : String) : Option String :=
  match kv.find? (fun e => e.key == k) with
  | some e => if now < e.expiresAt then some e.value else none
  | none => none

/-- `kv.delete(k)`. -/
def kvDelete (kv : KV) (k : String) : KV :=
  kv.filter (fun e => e.key ≠ k)

/-- `AuthRequest` from `@cloudflare/workers-oauth-provider`: the pending
authorization captured at `/authorize` time. -/
structure AuthRequest where
  responseType : String
  clientId : String
  redirectUri : String
  scope : List String
  state : String
deriving DecidableEq

/-- The JS value `JSON.parse` can hand back for the approval-cookie data,
classified by how the source then consumes it with `approved.includes` /
`approved.push`: an array, modelled by its string elements (a string
argument to `includes` can only ever match string elements, and this
code only signs arrays of strings); a JSON string, which has
`String.prototype.includes` (the substring test) but no `push`; or any
other value (number, object, null, boolean), on which
`approved.includes` is not a function and the call throws a TypeError. -/
inductive ParsedJson where
  | arr (l : List String)
  | str (s : String)
  | other
deriving DecidableEq

/-- The platform primitives the source calls but does not define.
`decodeURIComponent` returns `none` where the real one throws `URIError`;
`parseAuth` returns `none` where `JSON.parse` throws `SyntaxError`;
`parseList` is `JSON.parse` on the approval-cookie data: `none` for a
thrown `SyntaxError`, otherwise the parsed value classified as a
`ParsedJson`; `stringifyStr` is `JSON.stringify` of a plain JS string;
`decodeStateForm` models `JSON.parse(atob(s))` of the round-tripped
consent-form state, with outer `none` for a thrown exception and inner
`none` for a parsed object whose `oauthReqInfo` field is absent (falsy);
`formUrlEncode` is `URLSearchParams` value escaping. -/
structure JsPrims where
  sha256 : String → String
  hmacHex : String → String → String
  encodeURIComponent : String → String
  decodeURIComponent : String → Option String
  stringifyAuth : AuthRequest → String
  parseAuth : String → Option AuthRequest
  stringifyList : List String → String
  parseList : String → Option ParsedJson
  stringifyStr : String → String
  encodeStateForm : AuthRequest → String
  decodeStateForm : String → Option (Option AuthRequest)
  formUrlEncode : String → String
  urlHref : String → Option (String × String)

/-- An incoming HTTP request: URL query parameters in order, the `Cookie`
header (already defaulted to `""` when absent, as the source does with
`|| ""`), and the parsed form body for POSTs. -/
structure RequestM where
  query : List (String × String)
  cookieHeader : String
  form : List (String × FormVal)
deriving DecidableEq

/-- `url.searchParams.get(k)` / Hono's `c.req.query(k)`: first match. -/
def queryGet (req : RequestM) (k : String) : Option String :=
  (req.query.find? (fun p => p.1 == k)).map (fun p => p.2)

/-- A thrown exception: either an `OAuthError` or some other JS error
(carrying its message). -/
inductive ThrownErr where
  | oauth (e : OAuthError)
  | js (msg : String)
deriving DecidableEq

/-- `createOAuthState` (workers-oauth-utils.ts:46): store the serialized
pending authorization under `oauth_state:<token>` with the given TTL
(default 600); the `crypto.randomUUID()` state token is passed in. -/
def createOAuthState (P : JsPrims) (oauthReqInfo : AuthRequest) (kv : KV) (ttl : Nat)
    (stateToken : String) (now : Nat) : String × KV :=
  (stateToken, kvPut kv now ttl ("oauth_state:" ++ stateToken) (P.stringifyAuth oauthReqInfo))

/-- `bindStateToSession` (workers-oauth-utils.ts:60): a `Set-Cookie`
directive carrying `sha256(stateToken)`. -/
def bindStateToSession (P : JsPrims) (stateToken : String) : String :=
  "__Host-session=" ++ P.sha256 stateToken ++ "; HttpOnly; Secure; SameSite=Lax; Path=/; Max-Age=600"

/-- The clearing directive built in `validateOAuthState`
(workers-oauth-utils.ts:97). -/
def clearSessionCookieStr : String :=
  "__Host-session=; HttpOnly; Secure; SameSite=Lax; Path=/; Max-Age=0"

/-- `validateOAuthState` (workers-oauth-utils.ts:68): check the `state`
query parameter, the `__Host-session` cookie, and its equality with
`sha256(state)`; then read and delete the stored record and
`JSON.parse` it. Returns the (possibly thrown) result together with the
store as left behind. -/
def validateOAuthState (P : JsPrims) (req : RequestM) (kv : KV) (now : Nat) :
    Except ThrownErr (AuthRequest × String) × KV :=
  let stO := queryGet req "state"
  if jsFalsy stO then (.error (.oauth ⟨400, "Missing state parameter"⟩), kv)
  else
    let stateToken := stO.getD ""
    let sessionHash := getRecord (parseCookies req.cookieHeader) "__Host-session"
    if jsFalsy sessionHash then (.error (.oauth ⟨400, "Missing session cookie"⟩), kv)
    else
      let expectedHash := P.sha256 stateToken
      if sessionHash ≠ some expectedHash then
        (.error (.oauth ⟨403, "Session binding mismatch"⟩), kv)
      else
        let stored := kvGet kv now ("oauth_state:" ++ stateToken)
        if jsFalsy stored then (.error (.oauth ⟨400, "Invalid or expired state"⟩), kv)
        else
          let kv2 := kvDelete kv ("oauth_state:" ++ stateToken)
          match P.parseAuth (stored.getD "") with
          | none => (.error (.js "SyntaxError"), kv2)
          | some info => (.ok (info, clearSessionCookieStr), kv2)

/-- `decoded.lastIndexOf("|")` followed by the two `slice`s
(workers-oauth-utils.ts:140): split at the last pipe, `none` when there
is none. -/
def splitAtLastPipe (s : String) : Option (String × String) :=
  match s.toList.reverse.dropWhile (fun c => c ≠ '|') with
  | _ :: restRev =>
    some (String.mk restRev.reverse,
      String.mk (s.toList.reverse.takeWhile (fun c => c ≠ '|')).reverse)
  | [] => none

/-- `getApprovedClientsFromCookie` (workers-oauth-utils.ts:131): decode the
`__Host-approved` cookie, split `data|signature` at the last pipe,
HMAC-verify, and `JSON.parse` the data (that last step alone is wrapped
in try/catch, so a thrown `SyntaxError` becomes `[]`). The function
returns whatever `JSON.parse` produced — its `string[]` type annotation
is an unchecked cast. A thrown `URIError` from `decodeURIComponent`
propagates as `.error`. -/
def getApprovedClientsFromCookie (P : JsPrims) (cookieHeader secret : String) :
    Except String ParsedJson :=
  let raw := getRecord (parseCookies cookieHeader) "__Host-approved"
  if jsFalsy raw then .ok (.arr [])
  else
    match P.decodeURIComponent (raw.getD "") with
    | none => .error "URI malformed"
    | some decoded =>
      match splitAtLastPipe decoded with
      | none => .ok (.arr [])
      | some (data, signature) =>
        if P.hmacHex secret data ≠ signature then .ok (.arr [])
        else
          match P.parseList data with
          | none => .ok (.arr [])
          | some v => .ok v

/-- JS `String.prototype.includes`: is `sub` a contiguous substring? -/
def listContainsSub (sub : List Char) : List Char → Bool
  | [] => sub.isEmpty
  | x :: xs => sub.isPrefixOf (x :: xs) || listContainsSub sub xs

/-- `approved.includes(clientId)` as JS evaluates it on the parsed value:
the element test on an array, the substring test on a string, and a
thrown TypeError on any other value (no callable `includes`). -/
def jsIncludes (v : ParsedJson) (x : String) : Except String Bool :=
  match v with
  | .arr l => .ok (l.contains x)
  | .str s => .ok (listContainsSub x.toList s.toList)
  | .other => .error "approved.includes is not a function"

/-- `isClientApproved` (workers-oauth-utils.ts:107): the cookie's parsed
value with `approved.includes(clientId)` applied to it. -/
def isClientApproved (P : JsPrims) (cookieHeader clientId secret : String) :
    Except String Bool :=
  match getApprovedClientsFromCookie P cookieHeader secret with
  | .error e => .error e
  | .ok approved => jsIncludes approved clientId

/-- `addApprovedClient` (workers-oauth-utils.ts:116): append the client id
if absent, sign `JSON.stringify(approved)`, and return the new
`Set-Cookie` directive. On a MAC-valid non-array value the JS evaluates
`approved.includes` / `approved.push` accordingly: a string without the
client id as a substring throws at `push`, any other non-array throws
at `includes`. -/
def addApprovedClient (P : JsPrims) (cookieHeader clientId secret : String) :
    Except String String :=
  match getApprovedClientsFromCookie P cookieHeader secret with
  | .error e => .error e
  | .ok (.arr approved) =>
    let approved2 := if approved.contains clientId then approved else approved ++ [clientId]
    let data := P.stringifyList approved2
    let signature := P.hmacHex secret data
    let value := data ++ "|" ++ signature
    .ok ("__Host-approved=" ++ P.encodeURIComponent value ++
         "; HttpOnly; Secure; SameSite=Lax; Path=/; Max-Age=31536000")
  | .ok (.str s) =>
    if listContainsSub clientId.toList s.toList then
      let data := P.stringifyStr s
      let signature := P.hmacHex secret data
      let value := data ++ "|" ++ signature
      .ok ("__Host-approved=" ++ P.encodeURIComponent value ++
           "; HttpOnly; Secure; SameSite=Lax; Path=/; Max-Age=31536000")
    else .error "approved.push is not a function"
  | .ok .other => .error "approved.includes is not a function"

/-- The `name=value` pair a user agent stores (and later presents) from a
`Set-Cookie` directive: the text before the first `;`. -/
def cookiePairOfSetCookie (sc : String) : String :=
  String.mk (sc.toList.takeWhile (fun c => c ≠ ';'))

/-- JS `s.replace(/c/g, r)` over char lists (global single-char replace). -/
def jsReplaceAllChar (c : Char) (r : List Char) (l : List Char) : List Char :=
  (l.map (fun x => if x = c then r else [x])).flatten

/-- `sanitizeText` (workers-oauth-utils.ts:253): HTML-escape `&<>"'` by the
source's five successive global replaces, in order. -/
def sanitizeText (t : String) : String :=
  String.mk (jsReplaceAllChar (Char.ofNat 39) "&#x27;".toList
    (jsReplaceAllChar (Char.ofNat 34) "&quot;".toList
      (jsReplaceAllChar '>' "&gt;".toList
        (jsReplaceAllChar '<' "&lt;".toList
          (jsReplaceAllChar '&' "&amp;".toList t.toList)))))

/-- `sanitizeUrl` (workers-oauth-utils.ts:262): keep only http(s) URLs that
parse (`urlHref` models `new URL(url)` giving protocol and href, `none`
for a thrown parse error). -/
def sanitizeUrl (P : JsPrims) (url : String) : String :=
  match P.urlHref url with
  | some (protocol, href) => if protocol = "https:" ∨ protocol = "http:" then href else ""
  | none => ""

/-- `lookupClient`'s result from the external OAuth provider helpers. -/
structure ClientInfo where
  clientName : Option String
  clientId : Option String
deriving DecidableEq

/-- JS `a || b` on a possibly-undefined string. -/
def orTruthy (o : Option String) (d : String) : String :=
  match o with
  | some s => if s = "" then d else s
  | none => d

/-- `options.client?.clientName || options.client?.clientId || "Unknown Client"`
(workers-oauth-utils.ts:167). -/
def clientDisplayName (client : Option ClientInfo) : String :=
  orTruthy (client.bind (fun c => c.clientName))
    (orTruthy (client.bind (fun c => c.clientId)) "Unknown Client")

/-- The consent-page HTML (workers-oauth-utils.ts:170), with the template
interpolations as arguments (already sanitized by the caller below). -/
def consentHtmlP1 : String :=
  "<!DOCTYPE html>\n<html lang=\"ja\">\n<head>\n  <meta charset=\"utf-8\">\n  <meta name=\"viewport\" content=\"width=device-width, initial-scale=1\">\n  <title>CookForYou - 認証</title>\n  <style>\n    body \x7b font-family: -apple-system, BlinkMacSystemFont, sans-serif; display: flex; justify-content: center; align-items: center; min-height: 100vh; margin: 0; background: #f5f5f5; \x7d\n    .card \x7b background: white; border-radius: 12px; padding: 2rem; max-width: 400px; width: 90%; box-shadow: 0 2px 10px rgba(0,0,0,0.1); text-align: center; \x7d\n    .logo \x7b width: 64px; height: 64px; border-radius: 12px; margin-bottom: 1rem; \x7d\n    h1 \x7b font-size: 1.25rem; margin: 0.5rem 0; \x7d\n    p \x7b color: #666; font-size: 0.9rem; \x7d\n    .client \x7b font-weight: 600; color: #333; \x7d\n    button \x7b background: #06C755; color: white; border: none; padding: 12px 32px; border-radius: 8px; font-size: 1rem; cursor: pointer; margin-top: 1rem; width: 100%; \x7d\n    button:hover \x7b background: #05a847; \x7d\n  </style>\n</head>\n<body>\n  <div class=\"card\">\n    "

def consentHtmlP2 : String := "\n    <h1>"

def consentHtmlP3 : String := "</h1>\n    <p>"

def consentHtmlP4 : String := "</p>\n    <p><span class=\"client\">"

def consentHtmlP5 : String :=
  "</span> があなたのレシピデータへのアクセスを要求しています。</p>\n    <form method=\"POST\" action=\"/authorize\">\n      <input type=\"hidden\" name=\"csrf_token\" value=\""

def consentHtmlP6 : String := "\">\n      <input type=\"hidden\" name=\"state\" value=\""

def consentHtmlP7 : String :=
  "\">\n      <button type=\"submit\">LINEでログインして許可</button>\n    </form>\n  </div>\n</body>\n</html>"

/-- The consent-page HTML (workers-oauth-utils.ts:170): the template with
its interpolations (`logoPart`, sanitized names, the CSRF token and the
encoded state) spliced between the literal pieces above. -/
def consentHtml (logoPart clientName serverName serverDesc csrfToken encodedState : String) :
    String :=
  consentHtmlP1 ++ logoPart ++ consentHtmlP2 ++ serverName ++ consentHtmlP3 ++ serverDesc ++
    consentHtmlP4 ++ clientName ++ consentHtmlP5 ++ csrfToken ++ consentHtmlP6 ++
    encodedState ++ consentHtmlP7

/-- `renderApprovalDialog` (workers-oauth-utils.ts:157): a 200 HTML
response carrying the CSRF cookie and, in the form, the CSRF token and
the base64-encoded `{ oauthReqInfo }` state (`P.encodeStateForm`). -/
def renderApprovalDialog (P : JsPrims) (client : Option ClientInfo) (csrfToken : String)
    (serverName serverDesc : String) (logo : Option String) (setCookie : String)
    (stateInfo : AuthRequest) : ResponseM :=
  let clientName := clientDisplayName client
  let encodedState := P.encodeStateForm stateInfo
  let logoPart :=
    match logo with
    | some l =>
      if l = "" then ""
      else "<img src=\"" ++ sanitizeUrl P l ++ "\" class=\"logo\" alt=\"logo\">"
    | none => ""
  ⟨200,
   consentHtml logoPart (sanitizeText clientName) (sanitizeText serverName)
     (sanitizeText serverDesc) csrfToken encodedState,
   [("Content-Type", "text/html; charset=utf-8"), ("Set-Cookie", setCookie)]⟩

/-- `getLineAuthorizeUrl` (utils.ts): the IdP authorize URL, parameters in
the source's insertion order, values escaped by `urlEnc`
(`URLSearchParams` serialization). -/
def getLineAuthorizeUrl (urlEnc : String → String) (channelId redirectUri state : String) :
    String :=
  "https://access.line.me/oauth2/v2.1/authorize?response_type=code&client_id=" ++
    urlEnc channelId ++ "&redirect_uri=" ++ urlEnc redirectUri ++ "&state=" ++
    urlEnc state ++ "&scope=" ++ urlEnc "profile openid"

/-- The decoded outcome of the LINE token-exchange HTTP round trip:
non-success status, success without a truthy `access_token`, or a token. -/
inductive LineTokenOutcome where
  | httpErr
  | noToken
  | ok (tok : String)
deriving DecidableEq

/-- A LINE profile (fields the handler uses). -/
structure Profile where
  userId : String
  displayName : String
deriving DecidableEq

/-- The external collaborators of the `/callback` flow: the LINE network
round trips, Supabase password sign-in keyed by (email, password), and
`OAUTH_PROVIDER.completeAuthorization` returning `redirectTo`. -/
structure CallbackEnv where
  lineTokenHttp : String → LineTokenOutcome
  lineProfile : String → Option Profile
  supabaseAuth : String → String → Option String
  completeAuthorization : AuthRequest → String → String → String
  passwordPrefix : String

/-- `fetchLineToken` (utils.ts): `[null, 500-Response]` on a non-success
status or missing access token, else the token. -/
def fetchLineToken (E : CallbackEnv) (code : String) : Except ResponseM String :=
  match E.lineTokenHttp code with
  | .httpErr => .error ⟨500, "Failed to exchange LINE authorization code", []⟩
  | .noToken => .error ⟨500, "Missing access token from LINE", []⟩
  | .ok tok => .ok tok

/-- `signInWithLineId` (supabase-client.ts): derive
`{lineUserId}@line.com` / `{prefix}{lineUserId.slice(0,6)}` and sign in;
`none` on a sign-in error. Returns the Supabase user id. -/
def signInWithLineId (E : CallbackEnv) (lineUserId : String) : Option String :=
  E.supabaseAuth (lineUserId ++ "@line.com")
    (E.passwordPrefix ++ String.mk (lineUserId.toList.take 6))

/-- ASCII lowercase of a character. -/
def lowerChar (c : Char) : Char :=
  if 'A' ≤ c ∧ c ≤ 'Z' then Char.ofNat (c.toNat + 32) else c

/-- ASCII lowercase of a string (header names are ASCII). -/
def lowerStr (s : String) : String :=
  String.mk (s.toList.map lowerChar)

/-- The `Set-Cookie` header values of a response (header names are
case-insensitive). -/
def setCookies (r : ResponseM) : List String :=
  r.headers.filterMap (fun p => if lowerStr p.1 = "set-cookie" then some p.2 else none)

/-- `Object.fromEntries` over iterated header entries: for a duplicated
key, the first occurrence's position and the last occurrence's value win. -/
def fromEntriesLastWins (l : List (String × String)) : List (String × String) :=
  l.foldl (fun acc p => setRecord acc p.1 p.2) []

/-- `redirectToLine` (line-handler): 302 with the given headers spread
first and `Location` set to the LINE authorize URL. -/
def redirectToLine (P : JsPrims) (callbackUrl stateToken channelId : String)
    (headers : List (String × String)) : ResponseM :=
  ⟨302, "", headers ++ [("Location", getLineAuthorizeUrl P.formUrlEncode channelId callbackUrl stateToken)]⟩

/-- Per-request environment of the `/authorize` handlers: the external
`parseAuthRequest`/`lookupClient` helpers, the two `crypto.randomUUID()`
draws, configuration, and `getCallbackUrl(request)`. -/
structure AuthorizeEnv where
  parseAuthRequest : RequestM → AuthRequest
  lookupClient : String → Option ClientInfo
  csrfToken : String
  newStateToken : String
  channelId : String
  cookieKey : String
  callbackUrl : String

/-- `GET /authorize` (line-handler): 400 without a client id; already
approved clients skip the dialog (state persisted, session bound,
redirect to LINE); otherwise the consent dialog is rendered and the
state store is untouched. An uncaught exception from the approval-cookie
check propagates as `.error`. -/
def authorizeGetHandler (P : JsPrims) (A : AuthorizeEnv) (req : RequestM) (kv : KV)
    (now : Nat) : Except String (ResponseM × KV) :=
  let oauthReqInfo := A.parseAuthRequest req
  if oauthReqInfo.clientId = "" then .ok (textResponse "Invalid request" 400, kv)
  else
    match isClientApproved P req.cookieHeader oauthReqInfo.clientId A.cookieKey with
    | .error e => .error e
    | .ok true =>
      let r := createOAuthState P oauthReqInfo kv 600 A.newStateToken now
      let sessionBindingCookie := bindStateToSession P r.1
      .ok (redirectToLine P A.callbackUrl r.1 A.channelId [("Set-Cookie", sessionBindingCookie)], r.2)
    | .ok false =>
      let c := generateCSRFProtection A.csrfToken
      .ok (renderApprovalDialog P (A.lookupClient oauthReqInfo.clientId) c.1
             "My MCP Server" "Your service description here" none c.2 oauthReqInfo, kv)

/-- `POST /authorize` (line-handler): CSRF check, decode the round-tripped
state, record approval, persist the pending authorization, bind the
session, and redirect to LINE. The two appended `Set-Cookie` values pass
through `Object.fromEntries(headers)` before reaching the response. A
thrown `OAuthError` yields its response; any other throw yields the
500 text. -/
def authorizePostHandler (P : JsPrims) (A : AuthorizeEnv) (req : RequestM) (kv : KV)
    (now : Nat) : ResponseM × KV :=
  match validateCSRFToken req.form req.cookieHeader with
  | .error e => (e.toResponse, kv)
  | .ok _ =>
    match formGet req.form "state" with
    | some (.str encodedState) =>
      if encodedState = "" then (textResponse "Missing state in form data" 400, kv)
      else
        match P.decodeStateForm encodedState with
        | none => (textResponse "Invalid state data" 400, kv)
        | some none => (textResponse "Invalid request" 400, kv)
        | some (some oauthReqInfo) =>
          if oauthReqInfo.clientId = "" then (textResponse "Invalid request" 400, kv)
          else
            match addApprovedClient P req.cookieHeader oauthReqInfo.clientId A.cookieKey with
            | .error msg => (textResponse ("Internal server error: " ++ msg) 500, kv)
            | .ok approvedClientCookie =>
              let r := createOAuthState P oauthReqInfo kv 600 A.newStateToken now
              let sessionBindingCookie := bindStateToSession P r.1
              let headers := fromEntriesLastWins
                [("set-cookie", approvedClientCookie), ("set-cookie", sessionBindingCookie)]
              (redirectToLine P A.callbackUrl r.1 A.channelId headers, r.2)
    | _ => (textResponse "Missing state in form data" 400, kv)

/-- `GET /callback` (line-handler): validate state (a thrown `OAuthError`
becomes its response, any other throw the generic 500), require a client
id and a `code`, exchange the code, fetch the profile, sign in to
Supabase, and only then complete the authorization, attaching the
session-clearing cookie to the final 302. The returned `Bool` records
whether `completeAuthorization` (token issuance) was called. -/
def callbackHandler (P : JsPrims) (E : CallbackEnv) (req : RequestM) (kv : KV)
    (now : Nat) : ResponseM × KV × Bool :=
  match validateOAuthState P req kv now with
  | (.error (.oauth e), kv2) => (e.toResponse, kv2, false)
  | (.error (.js _), kv2) => (textResponse "Internal server error" 500, kv2, false)
  | (.ok (oauthReqInfo, clearSessionCookie), kv2) =>
    if oauthReqInfo.clientId = "" then (textResponse "Invalid OAuth request data" 400, kv2, false)
    else
      let codeO := queryGet req "code"
      if jsFalsy codeO then (textResponse "Missing authorization code" 400, kv2, false)
      else
        match fetchLineToken E (codeO.getD "") with
        | .error errResponse => (errResponse, kv2, false)
        | .ok lineAccessToken =>
          match E.lineProfile lineAccessToken with
          | none => (textResponse "Failed to fetch LINE profile" 500, kv2, false)
          | some profile =>
            match signInWithLineId E profile.userId with
            | none =>
              (⟨403, "Account not found. Please register via the app first.", []⟩, kv2, false)
            | some _supabaseUserId =>
              let redirectTo := E.completeAuthorization oauthReqInfo profile.userId profile.displayName
              let headers :=
                if clearSessionCookie = "" then [("Location", redirectTo)]
                else [("Location", redirectTo), ("Set-Cookie", clearSessionCookie)]
              (⟨302, "", headers⟩, kv2, true)

/-- The callback request a user agent issues after the IdP redirect: the
`state` query parameter plus the session-binding cookie stored from
`bindStateToSession`. -/
def sessionRequest (P : JsPrims) (stateToken : String)
    (extraQuery : List (String × String)) : RequestM :=
  { query := ("state", stateToken) :: extraQuery,
    cookieHeader := cookiePairOfSetCookie (bindStateToSession P stateToken),
    form := [] }

/-- A concrete pending authorization used to instantiate hypotheses. -/
def infoW : AuthRequest :=
  { responseType := "code", clientId := "client-1",
    redirectUri := "https://client.example/cb", scope := ["profile"], state := "cs" }

/-- A concrete instantiation of the platform primitives, used to discharge
the theorems' hypotheses about primitive outputs at specific inputs. -/
def PW : JsPrims where
  sha256 := fun s => "h" ++ s
  hmacHex := fun secret _data => "m" ++ secret
  encodeURIComponent := fun s => s
  decodeURIComponent := fun s => some s
  stringifyAuth := fun a => "J" ++ a.clientId
  parseAuth := fun s => if s = "Jclient-1" then some infoW else none
  stringifyList := fun l => String.intercalate "," l
  parseList := fun s =>
    if s = "client-1" then some (.arr ["client-1"])
    else if s = "num" then some .other
    else none
  stringifyStr := fun s => "Q" ++ s
  encodeStateForm := fun a => "B" ++ a.clientId
  decodeStateForm := fun s => if s = "Bclient-1" then some (some infoW) else none
  formUrlEncode := fun s => s
  urlHref := fun _ => none

/-- Value of a hex digit, else `none`. -/
def hexDigitVal (c : Char) : Option Nat :=
  if ('0' ≤ c ∧ c ≤ '9') then some (c.toNat - 48)
  else if ('a' ≤ c ∧ c ≤ 'f') then some (c.toNat - 87)
  else if ('A' ≤ c ∧ c ≤ 'F') then some (c.toNat - 55)
  else none

/-- `decodeURIComponent` over ASCII text: a `%` must be followed by two hex
digits; a malformed or non-ASCII escape gives `none`, modelling the thrown
`URIError` (multi-byte UTF-8 escapes are outside the inputs used here). -/
def percentDecodeA : List Char → Option (List Char)
  | [] => some []
  | '%' :: c1 :: c2 :: rest =>
    match hexDigitVal c1, hexDigitVal c2 with
    | some h1, some h2 =>
      if 16 * h1 + h2 < 128 then
        (percentDecodeA rest).map (fun l => Char.ofNat (16 * h1 + h2) :: l)
      else none
    | _, _ => none
  | '%' :: _ => none
  | c :: rest => (percentDecodeA rest).map (fun l => c :: l)

/-- String version of `percentDecodeA`. -/
def decodeURIComponentA (s : String) : Option String :=
  (percentDecodeA s.toList).map String.mk

/-- `PW` with the executable ASCII model of `decodeURIComponent`. -/
def PW5 : JsPrims :=
  { PW with decodeURIComponent := decodeURIComponentA }

/-- A concrete callback environment. -/
def EW : CallbackEnv where
  lineTokenHttp := fun c => if c = "code-1" then .ok "tok-1" else .httpErr
  lineProfile := fun t => if t = "tok-1" then some ⟨"U1", "Alice"⟩ else none
  supabaseAuth := fun _email _pw => none
  completeAuthorization := fun _ _ _ => "https://client.example/done"
  passwordPrefix := "pp"

/-- `EW` with a Supabase account linked for the profile's user. -/
def EWok : CallbackEnv :=
  { EW with supabaseAuth := fun email _pw => if email = "U1@line.com" then some "sb-1" else none }

/-- A concrete `/authorize` environment. -/
def AW : AuthorizeEnv where
  parseAuthRequest := fun _ => infoW
  lookupClient := fun _ => none
  csrfToken := "csrf-1"
  newStateToken := "newtok"
  channelId := "ch-1"
  cookieKey := "sec"
  callbackUrl := "https://mcp.example/callback"

/-! ### Helper lemmas about the string/cookie layer -/

/-- A string all of whose characters are safe inside a cookie value: no
whitespace, no `;`, no `=`. Hex digests and `encodeURIComponent` outputs
have this shape. -/
def cookieSafe (s : String) : Bool :=
  s.toList.all (fun c => !c.isWhitespace && c != ';' && c != '=')

theorem jsFalsy_some (v : String) : jsFalsy (some v) = (v == "") := rfl

theorem jsFalsy_some_eq_false {v : String} (h : v ≠ "") : jsFalsy (some v) = false := by
  rw [jsFalsy_some]
  exact beq_eq_false_iff_ne.mpr h

theorem string_toList_append (a b : String) : (a ++ b).toList = a.toList ++ b.toList := by
  cases a
  cases b
  rfl

theorem string_mk_toList (s : String) : String.mk s.toList = s := rfl

theorem string_toList_ne_nil {s : String} (h : s ≠ "") : s.toList ≠ [] := by
  intro hc
  apply h
  cases s with
  | mk d =>
    simp only [String.toList] at hc
    subst hc
    rfl

theorem splitOnCharL_of_not_mem {c : Char} {l : List Char} (h : c ∉ l) :
    splitOnCharL c l = [l] := by
  induction l with
  | nil => rfl
  | cons x xs ih =>
    have hx : ¬ x = c := by
      intro hxc
      exact h (hxc ▸ List.mem_cons_self x xs)
    have hxs : c ∉ xs := fun hm => h (List.mem_cons_of_mem _ hm)
    simp only [splitOnCharL, ih hxs, if_neg hx]

theorem splitOnCharL_append_sep {c : Char} {l₁ l₂ : List Char} (h : c ∉ l₁) :
    splitOnCharL c (l₁ ++ c :: l₂) = l₁ :: splitOnCharL c l₂ := by
  induction l₁ with
  | nil => simp [splitOnCharL]
  | cons x xs ih =>
    have hx : ¬ x = c := by
      intro hxc
      exact h (hxc ▸ List.mem_cons_self x xs)
    have hxs : c ∉ xs := fun hm => h (List.mem_cons_of_mem _ hm)
    simp only [List.cons_append, splitOnCharL, List.append_eq, ih hxs, if_neg hx]

theorem dropWhile_of_all_false {p : Char → Bool} {l : List Char}
    (h : ∀ x ∈ l, p x = false) : l.dropWhile p = l := by
  cases l with
  | nil => rfl
  | cons x xs =>
    rw [List.dropWhile_cons]
    simp [h x (List.mem_cons_self x xs)]

theorem trimL_of_no_ws {l : List Char} (h : ∀ x ∈ l, x.isWhitespace = false) :
    trimL l = l := by
  unfold trimL
  rw [dropWhile_of_all_false h,
      dropWhile_of_all_false (fun x hx => h x (List.mem_reverse.mp hx)),
      List.reverse_reverse]

theorem takeWhile_append_cons {p : Char → Bool} {l₁ l₂ : List Char} {x : Char}
    (h1 : ∀ y ∈ l₁, p y = true) (h2 : p x = false) :
    (l₁ ++ x :: l₂).takeWhile p = l₁ := by
  induction l₁ with
  | nil => simp [List.takeWhile_cons, h2]
  | cons a l ih =>
    rw [List.cons_append, List.takeWhile_cons, h1 a (List.mem_cons_self a l)]
    rw [ih (fun y hy => h1 y (List.mem_cons_of_mem _ hy))]
    simp

theorem dropWhile_append_cons {p : Char → Bool} {l₁ l₂ : List Char} {x : Char}
    (h1 : ∀ y ∈ l₁, p y = true) (h2 : p x = false) :
    (l₁ ++ x :: l₂).dropWhile p = x :: l₂ := by
  induction l₁ with
  | nil => simp [List.dropWhile_cons, h2]
  | cons a l ih =>
    rw [List.cons_append, List.dropWhile_cons]
    simp only [h1 a (List.mem_cons_self a l), if_pos]
    exact ih (fun y hy => h1 y (List.mem_cons_of_mem _ hy))

theorem getRecord_singleton (k v : String) : getRecord [(k, v)] k = some v := by
  simp [getRecord]

theorem cookieSafe_mem {s : String} (h : cookieSafe s = true) :
    ∀ x ∈ s.toList, x.isWhitespace = false ∧ x ≠ ';' ∧ x ≠ '=' := by
  intro x hx
  have := (List.all_eq_true.mp h) x hx
  simp only [Bool.and_eq_true, Bool.not_eq_true', bne_iff_ne] at this
  exact ⟨this.1.1, this.1.2, this.2⟩

/-- `parseCookies` of a single well-formed `name=value` pair. -/
theorem parseCookies_single {name v : String} (hn : cookieSafe name = true)
    (hne : name ≠ "") (hv : cookieSafe v = true) :
    parseCookies (name ++ "=" ++ v) = [(name, v)] := by
  have htl : (name ++ "=" ++ v).toList = name.toList ++ '=' :: v.toList := by
    rw [string_toList_append, string_toList_append]
    simp
  have hmemAll : ∀ x ∈ name.toList ++ '=' :: v.toList,
      x.isWhitespace = false ∧ x ≠ ';' := by
    intro x hx
    rcases List.mem_append.mp hx with hx1 | hx2
    · exact ⟨(cookieSafe_mem hn x hx1).1, (cookieSafe_mem hn x hx1).2.1⟩
    · rcases List.mem_cons.mp hx2 with rfl | hx3
      · exact ⟨rfl, by decide⟩
      · exact ⟨(cookieSafe_mem hv x hx3).1, (cookieSafe_mem hv x hx3).2.1⟩
  have hsplit1 : splitOnCharL ';' (name ++ "=" ++ v).toList =
      [name.toList ++ '=' :: v.toList] := by
    rw [htl]
    exact splitOnCharL_of_not_mem (fun hm => by simpa using (hmemAll ';' hm).2)
  have htrim : trimL (name.toList ++ '=' :: v.toList) = name.toList ++ '=' :: v.toList :=
    trimL_of_no_ws (fun x hx => (hmemAll x hx).1)
  have hsplit2 : splitOnCharL '=' (name.toList ++ '=' :: v.toList) =
      [name.toList, v.toList] := by
    rw [splitOnCharL_append_sep (fun hm => (cookieSafe_mem hn _ hm).2.2 rfl)]
    rw [splitOnCharL_of_not_mem (fun hm => (cookieSafe_mem hv _ hm).2.2 rfl)]
  unfold parseCookies
  rw [hsplit1]
  simp only [List.foldl_cons, List.foldl_nil, htrim, hsplit2]
  rw [if_pos (string_toList_ne_nil hne)]
  have htn : trimL name.data = name.data :=
    trimL_of_no_ws (fun x hx => (cookieSafe_mem hn x hx).1)
  have htv : trimL v.data = v.data :=
    trimL_of_no_ws (fun x hx => (cookieSafe_mem hv x hx).1)
  simp [setRecord, joinChar, htn, htv]

theorem splitAtLastPipe_append {data sig : String} (h : '|' ∉ sig.toList) :
    splitAtLastPipe (data ++ "|" ++ sig) = some (data, sig) := by
  have htl : (data ++ "|" ++ sig).toList = data.toList ++ '|' :: sig.toList := by
    rw [string_toList_append, string_toList_append]
    simp
  have hrev : (data.toList ++ '|' :: sig.toList).reverse =
      sig.toList.reverse ++ '|' :: data.toList.reverse := by
    simp
  have hmem : ∀ y ∈ sig.toList.reverse, (fun c => decide (c ≠ '|')) y = true := by
    intro y hy
    simp only [decide_eq_true_eq, ne_eq]
    intro hc
    exact h (hc ▸ List.mem_reverse.mp hy)
  unfold splitAtLastPipe
  rw [htl, hrev]
  rw [dropWhile_append_cons hmem (by simp), takeWhile_append_cons hmem (by simp)]
  simp

theorem kvGet_put_self {kv : KV} {now ttl now2 : Nat} {k v : String}
    (h : now2 < now + ttl) : kvGet (kvPut kv now ttl k v) now2 k = some v := by
  simp [kvGet, kvPut, List.find?_cons, h]

theorem kvGet_delete_self (kv : KV) (k : String) (now : Nat) :
    kvGet (kvDelete kv k) now k = none := by
  unfold kvGet kvDelete
  have : List.find? (fun e => e.key == k) (List.filter (fun e => decide (e.key ≠ k)) kv)
      = none := by
    rw [List.find?_eq_none]
    intro e he
    have := (List.mem_filter.mp he).2
    simp only [decide_eq_true_eq] at this
    simp [this]
  rw [this]

theorem cookiePairOfSetCookie_append {a b : String} (ha : ∀ x ∈ a.toList, x ≠ ';')
    (hb : ∃ t, b.toList = ';' :: t) : cookiePairOfSetCookie (a ++ b) = a := by
  obtain ⟨t, ht⟩ := hb
  unfold cookiePairOfSetCookie
  rw [string_toList_append, ht]
  rw [takeWhile_append_cons (p := fun c => decide (c ≠ ';'))
    (fun y hy => by simp [ha y hy]) (by simp)]
  exact string_mk_toList a

/-- The `name=value` pair a browser keeps from the session-binding
`Set-Cookie` directive. -/
theorem cookiePairOfSetCookie_bind (P : JsPrims) (st : String)
    (hsafe : cookieSafe (P.sha256 st) = true) :
    cookiePairOfSetCookie (bindStateToSession P st) = "__Host-session=" ++ P.sha256 st := by
  unfold bindStateToSession
  rw [show "__Host-session=" ++ P.sha256 st ++ "; HttpOnly; Secure; SameSite=Lax; Path=/; Max-Age=600"
      = ("__Host-session=" ++ P.sha256 st) ++ "; HttpOnly; Secure; SameSite=Lax; Path=/; Max-Age=600"
      from rfl]
  apply cookiePairOfSetCookie_append
  · intro x hx
    rw [string_toList_append] at hx
    rcases List.mem_append.mp hx with hx1 | hx2
    · have hall : ∀ y ∈ ("__Host-session=" : String).toList, y ≠ ';' := by decide
      exact hall x hx1
    · exact (cookieSafe_mem hsafe x hx2).2.1
  · exact ⟨(" HttpOnly; Secure; SameSite=Lax; Path=/; Max-Age=600" : String).toList, rfl⟩

/-- Presenting the cookie produced by `bindStateToSession` makes the
`__Host-session` cookie parse back to `sha256(stateToken)`. -/
theorem getRecord_session_of_bind (P : JsPrims) (st : String)
    (hsafe : cookieSafe (P.sha256 st) = true) :
    getRecord (parseCookies (cookiePairOfSetCookie (bindStateToSession P st)))
      "__Host-session" = some (P.sha256 st) := by
  rw [cookiePairOfSetCookie_bind P st hsafe]
  rw [show ("__Host-session=" ++ P.sha256 st) = "__Host-session" ++ "=" ++ P.sha256 st from rfl]
  rw [parseCookies_single (by decide) (by decide) hsafe]
  exact getRecord_singleton _ _

theorem queryGet_sessionRequest (P : JsPrims) (st : String) (q : List (String × String)) :
    queryGet (sessionRequest P st q) "state" = some st := by
  simp [queryGet, sessionRequest, List.find?_cons]

/-! ### Characterizations of `validateOAuthState` -/

theorem validateOAuthState_missing_state {P : JsPrims} {req : RequestM} {kv : KV} {now : Nat}
    (hst : jsFalsy (queryGet req "state") = true) :
    validateOAuthState P req kv now = (.error (.oauth ⟨400, "Missing state parameter"⟩), kv) := by
  simp [validateOAuthState, hst]

theorem validateOAuthState_missing_cookie {P : JsPrims} {req : RequestM} {kv : KV} {now : Nat}
    {st : String} (hst : queryGet req "state" = some st) (hne : st ≠ "")
    (hck : jsFalsy (getRecord (parseCookies req.cookieHeader) "__Host-session") = true) :
    validateOAuthState P req kv now = (.error (.oauth ⟨400, "Missing session cookie"⟩), kv) := by
  simp [validateOAuthState, hst, jsFalsy_some_eq_false hne, hck]

theorem validateOAuthState_mismatch {P : JsPrims} {req : RequestM} {kv : KV} {now : Nat}
    {st hv : String} (hst : queryGet req "state" = some st) (hne : st ≠ "")
    (hck : getRecord (parseCookies req.cookieHeader) "__Host-session" = some hv)
    (hhne : hv ≠ "") (hneq : hv ≠ P.sha256 st) :
    validateOAuthState P req kv now =
      (.error (.oauth ⟨403, "Session binding mismatch"⟩), kv) := by
  simp [validateOAuthState, hst, jsFalsy_some_eq_false hne, hck,
    jsFalsy_some_eq_false hhne, hneq]

theorem validateOAuthState_not_found {P : JsPrims} {req : RequestM} {kv : KV} {now : Nat}
    {st : String} (hst : queryGet req "state" = some st) (hne : st ≠ "")
    (hck : getRecord (parseCookies req.cookieHeader) "__Host-session" = some (P.sha256 st))
    (hhne : P.sha256 st ≠ "")
    (hget : jsFalsy (kvGet kv now ("oauth_state:" ++ st)) = true) :
    validateOAuthState P req kv now =
      (.error (.oauth ⟨400, "Invalid or expired state"⟩), kv) := by
  simp [validateOAuthState, hst, jsFalsy_some_eq_false hne, hck,
    jsFalsy_some_eq_false hhne, hget]

theorem validateOAuthState_corrupt {P : JsPrims} {req : RequestM} {kv : KV} {now : Nat}
    {st stored : String} (hst : queryGet req "state" = some st) (hne : st ≠ "")
    (hck : getRecord (parseCookies req.cookieHeader) "__Host-session" = some (P.sha256 st))
    (hhne : P.sha256 st ≠ "")
    (hget : kvGet kv now ("oauth_state:" ++ st) = some stored) (hsne : stored ≠ "")
    (hparse : P.parseAuth stored = none) :
    validateOAuthState P req kv now =
      (.error (.js "SyntaxError"), kvDelete kv ("oauth_state:" ++ st)) := by
  simp [validateOAuthState, hst, jsFalsy_some_eq_false hne, hck,
    jsFalsy_some_eq_false hhne, hget, jsFalsy_some_eq_false hsne, hparse]

theorem validateOAuthState_success {P : JsPrims} {req : RequestM} {kv : KV} {now : Nat}
    {st stored : String} {info : AuthRequest}
    (hst : queryGet req "state" = some st) (hne : st ≠ "")
    (hck : getRecord (parseCookies req.cookieHeader) "__Host-session" = some (P.sha256 st))
    (hhne : P.sha256 st ≠ "")
    (hget : kvGet kv now ("oauth_state:" ++ st) = some stored) (hsne : stored ≠ "")
    (hparse : P.parseAuth stored = some info) :
    validateOAuthState P req kv now =
      (.ok (info, clearSessionCookieStr), kvDelete kv ("oauth_state:" ++ st)) := by
  simp [validateOAuthState, hst, jsFalsy_some_eq_false hne, hck,
    jsFalsy_some_eq_false hhne, hget, jsFalsy_some_eq_false hsne, hparse]

/-! ### Claims -/

/-- C2: saving a pending authorization with `createOAuthState` and
consuming the returned state token with `validateOAuthState` (presenting
the matching session cookie) yields a structurally equal pending
authorization, and a second consume of the same token fails with the
"Invalid or expired state" (state-not-found) error: the record is
destroyed on first successful read. Hypotheses state the platform facts:
the random token is non-empty, SHA-256 output is non-empty hex
(cookie-safe), `JSON.stringify` output is non-empty and round-trips
through `JSON.parse`, and the first consume happens before the TTL
expires. -/
theorem c2_save_consume_roundtrip (P : JsPrims) (info : AuthRequest) (kv : KV)
    (ttl : Nat) (token : String) (now now2 now3 : Nat)
    (htok : token ≠ "")
    (hhash : cookieSafe (P.sha256 token) = true)
    (hhne : P.sha256 token ≠ "")
    (hser : P.stringifyAuth info ≠ "")
    (hrt : P.parseAuth (P.stringifyAuth info) = some info)
    (hexp : now2 < now + ttl) :
    (validateOAuthState P (sessionRequest P token [])
        (createOAuthState P info kv ttl token now).2 now2).1
      = .ok (info, clearSessionCookieStr) ∧
    (validateOAuthState P (sessionRequest P token [])
        (validateOAuthState P (sessionRequest P token [])
          (createOAuthState P info kv ttl token now).2 now2).2 now3).1
      = .error (.oauth ⟨400, "Invalid or expired state"⟩) := by
  have hq := queryGet_sessionRequest P token []
  have hck : getRecord (parseCookies (sessionRequest P token []).cookieHeader)
      "__Host-session" = some (P.sha256 token) := getRecord_session_of_bind P token hhash
  have hget : kvGet (createOAuthState P info kv ttl token now).2 now2
      ("oauth_state:" ++ token) = some (P.stringifyAuth info) := kvGet_put_self hexp
  have hfull := validateOAuthState_success hq htok hck hhne hget hser hrt
  refine ⟨by rw [hfull], ?_⟩
  rw [hfull]
  have hget2 : jsFalsy (kvGet (kvDelete (createOAuthState P info kv ttl token now).2
      ("oauth_state:" ++ token)) now3 ("oauth_state:" ++ token)) = true := by
    rw [kvGet_delete_self]
    rfl
  rw [validateOAuthState_not_found hq htok hck hhne hget2]

/-- Witness for C2 at concrete inputs. -/
theorem c2_witness :
    (("t" : String) ≠ "" ∧ cookieSafe (PW.sha256 "t") = true ∧ PW.sha256 "t" ≠ "" ∧
      PW.stringifyAuth infoW ≠ "" ∧ PW.parseAuth (PW.stringifyAuth infoW) = some infoW ∧
      (1 : Nat) < 0 + 600) ∧
    ((validateOAuthState PW (sessionRequest PW "t" [])
        (createOAuthState PW infoW [] 600 "t" 0).2 1).1
      = .ok (infoW, clearSessionCookieStr) ∧
     (validateOAuthState PW (sessionRequest PW "t" [])
        (validateOAuthState PW (sessionRequest PW "t" [])
          (createOAuthState PW infoW [] 600 "t" 0).2 1).2 2).1
      = .error (.oauth ⟨400, "Invalid or expired state"⟩)) := by
  refine ⟨?_, c2_save_consume_roundtrip PW infoW [] 600 "t" 0 1 2 ?_ ?_ ?_ ?_ ?_ ?_⟩ <;>
    decide

/-- C4: verifying a callback that presents the cookie produced by
`bindStateToSession` for the same state token passes the session-binding
check (and, with the record stored, the whole validation succeeds),
while presenting a cookie bound to a different state token fails with
the 403 "Session binding mismatch" error. The hash-inequality hypothesis
is SHA-256 collision-freeness at the two tokens. -/
theorem c4_session_binding (P : JsPrims) (info : AuthRequest) (kv : KV)
    (ttl : Nat) (st st2 : String) (now now2 : Nat)
    (hst : st ≠ "")
    (hsafe : cookieSafe (P.sha256 st) = true) (hhne : P.sha256 st ≠ "")
    (hser : P.stringifyAuth info ≠ "") (hrt : P.parseAuth (P.stringifyAuth info) = some info)
    (hexp : now2 < now + ttl)
    (hsafe2 : cookieSafe (P.sha256 st2) = true) (hhne2 : P.sha256 st2 ≠ "")
    (hneq : P.sha256 st2 ≠ P.sha256 st) :
    (validateOAuthState P (sessionRequest P st [])
        (createOAuthState P info kv ttl st now).2 now2).1
      = .ok (info, clearSessionCookieStr) ∧
    (∀ (kv2 : KV) (now3 : Nat),
      validateOAuthState P
        { query := [("state", st)],
          cookieHeader := cookiePairOfSetCookie (bindStateToSession P st2),
          form := [] } kv2 now3
      = (.error (.oauth ⟨403, "Session binding mismatch"⟩), kv2)) := by
  constructor
  · have hq := queryGet_sessionRequest P st []
    have hck : getRecord (parseCookies (sessionRequest P st []).cookieHeader)
        "__Host-session" = some (P.sha256 st) := getRecord_session_of_bind P st hsafe
    have hget : kvGet (createOAuthState P info kv ttl st now).2 now2
        ("oauth_state:" ++ st) = some (P.stringifyAuth info) := kvGet_put_self hexp
    rw [validateOAuthState_success hq hst hck hhne hget hser hrt]
  · intro kv2 now3
    have hq : queryGet
        { query := [("state", st)],
          cookieHeader := cookiePairOfSetCookie (bindStateToSession P st2),
          form := [] } "state" = some st := by
      simp [queryGet, List.find?_cons]
    have hck : getRecord (parseCookies
        (RequestM.cookieHeader
          { query := [("state", st)],
            cookieHeader := cookiePairOfSetCookie (bindStateToSession P st2),
            form := [] })) "__Host-session" = some (P.sha256 st2) :=
      getRecord_session_of_bind P st2 hsafe2
    exact validateOAuthState_mismatch hq hst hck hhne2 hneq

/-- Witness for C4 at concrete inputs. -/
theorem c4_witness :
    (("t" : String) ≠ "" ∧ cookieSafe (PW.sha256 "t") = true ∧ PW.sha256 "t" ≠ "" ∧
      PW.stringifyAuth infoW ≠ "" ∧ PW.parseAuth (PW.stringifyAuth infoW) = some infoW ∧
      (1 : Nat) < 0 + 600 ∧
      cookieSafe (PW.sha256 "u") = true ∧ PW.sha256 "u" ≠ "" ∧ PW.sha256 "u" ≠ PW.sha256 "t") ∧
    ((validateOAuthState PW (sessionRequest PW "t" [])
        (createOAuthState PW infoW [] 600 "t" 0).2 1).1
      = .ok (infoW, clearSessionCookieStr) ∧
     (∀ (kv2 : KV) (now3 : Nat),
       validateOAuthState PW
         { query := [("state", "t")],
           cookieHeader := cookiePairOfSetCookie (bindStateToSession PW "u"),
           form := [] } kv2 now3
       = (.error (.oauth ⟨403, "Session binding mismatch"⟩), kv2))) := by
  refine ⟨?_, c4_session_binding PW infoW [] 600 "t" "u" 0 1 ?_ ?_ ?_ ?_ ?_ ?_ ?_ ?_ ?_⟩ <;>
    decide

/-- C10: `validateOAuthState` does all its cheap checks before touching the
key-value store. First part: whenever it fails with the missing-state,
missing-session-cookie, or session-binding-mismatch error, the store it
returns is exactly the store it was given (nothing read mattered,
nothing was deleted). Second part: after a wrong-session callback
attempt fails with the mismatch error, the legitimate session can still
consume the pending authorization. -/
theorem c10_cheap_checks_before_store (P : JsPrims) (info : AuthRequest) (kv : KV)
    (ttl : Nat) (token st2 : String) (now now2 now3 : Nat)
    (htok : token ≠ "")
    (hhash : cookieSafe (P.sha256 token) = true) (hhne : P.sha256 token ≠ "")
    (hser : P.stringifyAuth info ≠ "") (hrt : P.parseAuth (P.stringifyAuth info) = some info)
    (hexp : now3 < now + ttl)
    (hsafe2 : cookieSafe (P.sha256 st2) = true) (hhne2 : P.sha256 st2 ≠ "")
    (hneq : P.sha256 st2 ≠ P.sha256 token) :
    (∀ (req : RequestM) (kv0 : KV) (t : Nat),
      ((validateOAuthState P req kv0 t).1 = .error (.oauth ⟨400, "Missing state parameter"⟩) ∨
       (validateOAuthState P req kv0 t).1 = .error (.oauth ⟨400, "Missing session cookie"⟩) ∨
       (validateOAuthState P req kv0 t).1 = .error (.oauth ⟨403, "Session binding mismatch"⟩)) →
      (validateOAuthState P req kv0 t).2 = kv0) ∧
    validateOAuthState P
      { query := [("state", token)],
        cookieHeader := cookiePairOfSetCookie (bindStateToSession P st2),
        form := [] }
      (createOAuthState P info kv ttl token now).2 now2
      = (.error (.oauth ⟨403, "Session binding mismatch"⟩),
         (createOAuthState P info kv ttl token now).2) ∧
    (validateOAuthState P (sessionRequest P token [])
        (createOAuthState P info kv ttl token now).2 now3).1
      = .ok (info, clearSessionCookieStr) := by
  refine ⟨?_, ?_, ?_⟩
  · intro req kv0 t h
    cases hq : jsFalsy (queryGet req "state") with
    | true => simp [validateOAuthState, hq]
    | false =>
      cases hc : jsFalsy (getRecord (parseCookies req.cookieHeader) "__Host-session") with
      | true => simp [validateOAuthState, hq, hc]
      | false =>
        by_cases hm : getRecord (parseCookies req.cookieHeader) "__Host-session"
            ≠ some (P.sha256 ((queryGet req "state").getD ""))
        · simp [validateOAuthState, hq, hc, hm]
        · rw [not_not] at hm
          have hc2 : jsFalsy (some (P.sha256 ((queryGet req "state").getD ""))) = false :=
            hm ▸ hc
          cases hg : jsFalsy (kvGet kv0 t ("oauth_state:" ++ (queryGet req "state").getD "")) with
          | true => simp [validateOAuthState, hq, hc2, hm, hg]
          | false =>
            cases hp : P.parseAuth ((kvGet kv0 t
                ("oauth_state:" ++ (queryGet req "state").getD "")).getD "") with
            | none => simp [validateOAuthState, hq, hc2, hm, hg, hp] at h
            | some a => simp [validateOAuthState, hq, hc2, hm, hg, hp] at h
  · have hq : queryGet
        { query := [("state", token)],
          cookieHeader := cookiePairOfSetCookie (bindStateToSession P st2),
          form := [] } "state" = some token := by
      simp [queryGet, List.find?_cons]
    have hck : getRecord (parseCookies
        (RequestM.cookieHeader
          { query := [("state", token)],
            cookieHeader := cookiePairOfSetCookie (bindStateToSession P st2),
            form := [] })) "__Host-session" = some (P.sha256 st2) :=
      getRecord_session_of_bind P st2 hsafe2
    exact validateOAuthState_mismatch hq htok hck hhne2 hneq
  · have hq := queryGet_sessionRequest P token []
    have hck : getRecord (parseCookies (sessionRequest P token []).cookieHeader)
        "__Host-session" = some (P.sha256 token) := getRecord_session_of_bind P token hhash
    have hget : kvGet (createOAuthState P info kv ttl token now).2 now3
        ("oauth_state:" ++ token) = some (P.stringifyAuth info) := kvGet_put_self hexp
    rw [validateOAuthState_success hq htok hck hhne hget hser hrt]

/-- Witness for C10 at concrete inputs. -/
theorem c10_witness :
    (("t" : String) ≠ "" ∧ cookieSafe (PW.sha256 "t") = true ∧ PW.sha256 "t" ≠ "" ∧
      PW.stringifyAuth infoW ≠ "" ∧ PW.parseAuth (PW.stringifyAuth infoW) = some infoW ∧
      (1 : Nat) < 0 + 600 ∧
      cookieSafe (PW.sha256 "u") = true ∧ PW.sha256 "u" ≠ "" ∧ PW.sha256 "u" ≠ PW.sha256 "t") ∧
    ((∀ (req : RequestM) (kv0 : KV) (t : Nat),
      ((validateOAuthState PW req kv0 t).1 = .error (.oauth ⟨400, "Missing state parameter"⟩) ∨
       (validateOAuthState PW req kv0 t).1 = .error (.oauth ⟨400, "Missing session cookie"⟩) ∨
       (validateOAuthState PW req kv0 t).1 = .error (.oauth ⟨403, "Session binding mismatch"⟩)) →
      (validateOAuthState PW req kv0 t).2 = kv0) ∧
    validateOAuthState PW
      { query := [("state", "t")],
        cookieHeader := cookiePairOfSetCookie (bindStateToSession PW "u"),
        form := [] }
      (createOAuthState PW infoW [] 600 "t" 0).2 5
      = (.error (.oauth ⟨403, "Session binding mismatch"⟩),
         (createOAuthState PW infoW [] 600 "t" 0).2) ∧
    (validateOAuthState PW (sessionRequest PW "t" [])
        (createOAuthState PW infoW [] 600 "t" 0).2 1).1
      = .ok (infoW, clearSessionCookieStr)) := by
  refine ⟨?_,
    c10_cheap_checks_before_store PW infoW [] 600 "t" "u" 0 5 1 ?_ ?_ ?_ ?_ ?_ ?_ ?_ ?_ ?_⟩ <;>
    decide

/-- C3 counterexample: with a submitted token present ("t") and NO CSRF
cookie at all, `validateCSRFToken` throws the 403 "CSRF token mismatch"
error — not the 400 missing-token error the claim requires for an
absent cookie. -/
theorem c3_counterexample :
    validateCSRFToken [("csrf_token", FormVal.str "t")] ""
      = .error ⟨403, "CSRF token mismatch"⟩ ∧
    validateCSRFToken [("csrf_token", FormVal.str "t")] ""
      ≠ .error ⟨400, "Missing CSRF token"⟩ := by
  exact ⟨by decide, by decide⟩

/-- C3 (amended): the missing-token 400 error is raised only for a
missing, non-string, or empty submitted form token; an absent, empty, or
differing cookie all raise the 403 mismatch error; and validation
succeeds exactly when the submitted token is a non-empty string equal to
the cookie token. -/
theorem c3_csrf_characterization (form : List (String × FormVal)) (ch : String) :
    (validateCSRFToken form ch = .ok () ↔
      (∃ s, s ≠ "" ∧ formGet form "csrf_token" = some (.str s) ∧
        getRecord (parseCookies ch) "__Host-csrf" = some s)) ∧
    ((formGet form "csrf_token" = none ∨ formGet form "csrf_token" = some .file ∨
      formGet form "csrf_token" = some (.str "")) →
      validateCSRFToken form ch = .error ⟨400, "Missing CSRF token"⟩) ∧
    (∀ s, s ≠ "" → formGet form "csrf_token" = some (.str s) →
      getRecord (parseCookies ch) "__Host-csrf" ≠ some s →
      validateCSRFToken form ch = .error ⟨403, "CSRF token mismatch"⟩) := by
  refine ⟨⟨?_, ?_⟩, ?_, ?_⟩
  · intro h
    cases hf : formGet form "csrf_token" with
    | none => simp [validateCSRFToken, hf] at h
    | some v =>
      cases v with
      | file => simp [validateCSRFToken, hf] at h
      | str s =>
        by_cases hs : s = ""
        · subst hs
          simp [validateCSRFToken, hf] at h
        · by_cases hck : getRecord (parseCookies ch) "__Host-csrf" = some s
          · exact ⟨s, hs, rfl, hck⟩
          · exfalso
            simp [validateCSRFToken, hf, hs, hck] at h
  · rintro ⟨s, hs, hf, hck⟩
    simp [validateCSRFToken, hf, hs, hck, jsFalsy_some_eq_false hs]
  · intro h
    rcases h with h | h | h <;> simp [validateCSRFToken, h]
  · intro s hs hf hck
    simp [validateCSRFToken, hf, hs, hck]

/-- Witness for C3's amended characterization at concrete inputs. -/
theorem c3_witness :
    (validateCSRFToken [("csrf_token", FormVal.str "tok")] "__Host-csrf=tok" = .ok () ↔
      (∃ s, s ≠ "" ∧ formGet [("csrf_token", FormVal.str "tok")] "csrf_token" = some (.str s) ∧
        getRecord (parseCookies "__Host-csrf=tok") "__Host-csrf" = some s)) ∧
    ((formGet [("csrf_token", FormVal.str "tok")] "csrf_token" = none ∨
      formGet [("csrf_token", FormVal.str "tok")] "csrf_token" = some .file ∨
      formGet [("csrf_token", FormVal.str "tok")] "csrf_token" = some (.str "")) →
      validateCSRFToken [("csrf_token", FormVal.str "tok")] "__Host-csrf=tok"
        = .error ⟨400, "Missing CSRF token"⟩) ∧
    (∀ s, s ≠ "" → formGet [("csrf_token", FormVal.str "tok")] "csrf_token" = some (.str s) →
      getRecord (parseCookies "__Host-csrf=tok") "__Host-csrf" ≠ some s →
      validateCSRFToken [("csrf_token", FormVal.str "tok")] "__Host-csrf=tok"
        = .error ⟨403, "CSRF token mismatch"⟩) :=
  c3_csrf_characterization [("csrf_token", FormVal.str "tok")] "__Host-csrf=tok"

/-- C6 counterexample: with the stored value under the state token being
unparseable ("notjson"), the `/callback` request does not report any
distinct state-corrupt error: it returns the generic 500
"Internal server error" response (the catch-all for non-`OAuthError`
throws), exactly the generic unexpected failure the claim rules out. -/
theorem c6_counterexample :
    callbackHandler PW EW
      { query := [("state", "t")], cookieHeader := "__Host-session=ht", form := [] }
      [⟨"oauth_state:t", 100, "notjson"⟩] 0
      = (⟨500, "Internal server error", []⟩, [], false) := by
  decide

/-- C6 (amended): a deserialization failure of the stored record surfaces
as a thrown non-`OAuthError` exception that the callback's catch-all
turns into the generic 500 "Internal server error" response — an
orderly response, not a crash, but not a distinct state-corrupt error;
the record has already been deleted by then. -/
theorem c6_corrupt_state_generic_500 (P : JsPrims) (E : CallbackEnv) (req : RequestM)
    (kv : KV) (now : Nat) (st stored : String)
    (hst : queryGet req "state" = some st) (hne : st ≠ "")
    (hck : getRecord (parseCookies req.cookieHeader) "__Host-session" = some (P.sha256 st))
    (hhne : P.sha256 st ≠ "")
    (hget : kvGet kv now ("oauth_state:" ++ st) = some stored) (hsne : stored ≠ "")
    (hparse : P.parseAuth stored = none) :
    callbackHandler P E req kv now
      = (textResponse "Internal server error" 500,
         kvDelete kv ("oauth_state:" ++ st), false) := by
  unfold callbackHandler
  rw [validateOAuthState_corrupt hst hne hck hhne hget hsne hparse]

/-- Witness for C6's amended theorem at concrete inputs. -/
theorem c6_witness :
    (queryGet { query := [("state", "t")], cookieHeader := "__Host-session=ht", form := [] }
        "state" = some "t" ∧ ("t" : String) ≠ "" ∧
      getRecord (parseCookies "__Host-session=ht") "__Host-session" = some (PW.sha256 "t") ∧
      PW.sha256 "t" ≠ "" ∧
      kvGet [⟨"oauth_state:t", 100, "notjson"⟩] 0 ("oauth_state:" ++ "t") = some "notjson" ∧
      ("notjson" : String) ≠ "" ∧ PW.parseAuth "notjson" = none) ∧
    callbackHandler PW EW
      { query := [("state", "t")], cookieHeader := "__Host-session=ht", form := [] }
      [⟨"oauth_state:t", 100, "notjson"⟩] 0
      = (textResponse "Internal server error" 500,
         kvDelete [⟨"oauth_state:t", 100, "notjson"⟩] ("oauth_state:" ++ "t"), false) := by
  refine ⟨?_, c6_corrupt_state_generic_500 PW EW _ _ 0 "t" "notjson" ?_ ?_ ?_ ?_ ?_ ?_ ?_⟩ <;>
    decide

/-- C9: on an otherwise successful callback where the Supabase sign-in
reports no linked account, the response is the distinct literal 403
"Account not found. Please register via the app first." and the
token-issuance call (`completeAuthorization`) is never made (the `false`
component). -/
theorem c9_account_not_linked (P : JsPrims) (E : CallbackEnv) (req : RequestM)
    (kv : KV) (now : Nat) (st stored code tok : String) (info : AuthRequest) (prof : Profile)
    (hst : queryGet req "state" = some st) (hne : st ≠ "")
    (hck : getRecord (parseCookies req.cookieHeader) "__Host-session" = some (P.sha256 st))
    (hhne : P.sha256 st ≠ "")
    (hget : kvGet kv now ("oauth_state:" ++ st) = some stored) (hsne : stored ≠ "")
    (hparse : P.parseAuth stored = some info) (hcid : ¬ info.clientId = "")
    (hcode : queryGet req "code" = some code) (hcne : code ≠ "")
    (htok : E.lineTokenHttp code = .ok tok)
    (hprof : E.lineProfile tok = some prof)
    (hsign : E.supabaseAuth (prof.userId ++ "@line.com")
      (E.passwordPrefix ++ String.mk (prof.userId.toList.take 6)) = none) :
    callbackHandler P E req kv now
      = (⟨403, "Account not found. Please register via the app first.", []⟩,
         kvDelete kv ("oauth_state:" ++ st), false) := by
  have hsign2 : E.supabaseAuth (prof.userId ++ "@line.com")
      (E.passwordPrefix ++ String.mk (prof.userId.data.take 6)) = none := hsign
  simp [callbackHandler, validateOAuthState_success hst hne hck hhne hget hsne hparse,
    hcid, hcode, jsFalsy_some_eq_false hcne, fetchLineToken, htok, hprof,
    signInWithLineId, hsign2]

/-- Witness for C9 at concrete inputs. -/
theorem c9_witness :
    (queryGet { query := [("state", "t"), ("code", "code-1")], cookieHeader := "__Host-session=ht", form := [] } "state" = some "t" ∧
      ("t" : String) ≠ "" ∧
      getRecord (parseCookies "__Host-session=ht") "__Host-session" = some (PW.sha256 "t") ∧
      PW.sha256 "t" ≠ "" ∧
      kvGet [⟨"oauth_state:t", 100, "Jclient-1"⟩] 0 ("oauth_state:" ++ "t")
        = some "Jclient-1" ∧
      ("Jclient-1" : String) ≠ "" ∧ PW.parseAuth "Jclient-1" = some infoW ∧
      ¬ infoW.clientId = "" ∧
      queryGet { query := [("state", "t"), ("code", "code-1")], cookieHeader := "__Host-session=ht", form := [] } "code" = some "code-1" ∧
      ("code-1" : String) ≠ "" ∧
      EW.lineTokenHttp "code-1" = .ok "tok-1" ∧
      EW.lineProfile "tok-1" = some ⟨"U1", "Alice"⟩ ∧
      EW.supabaseAuth (("U1" : String) ++ "@line.com")
        (EW.passwordPrefix ++ String.mk (("U1" : String).toList.take 6)) = none) ∧
    callbackHandler PW EW
      { query := [("state", "t"), ("code", "code-1")], cookieHeader := "__Host-session=ht", form := [] }
      [⟨"oauth_state:t", 100, "Jclient-1"⟩] 0
      = (⟨403, "Account not found. Please register via the app first.", []⟩,
         kvDelete [⟨"oauth_state:t", 100, "Jclient-1"⟩] ("oauth_state:" ++ "t"), false) := by
  refine ⟨?_,
    c9_account_not_linked PW EW _ _ 0 "t" "Jclient-1" "code-1" "tok-1" infoW ⟨"U1", "Alice"⟩
      ?_ ?_ ?_ ?_ ?_ ?_ ?_ ?_ ?_ ?_ ?_ ?_ ?_⟩ <;>
    decide

theorem setCookies_nil (s : Nat) (b : String) : setCookies ⟨s, b, []⟩ = [] := rfl

theorem setCookies_redirect (rt cc : String) :
    setCookies ⟨302, "", [("Location", rt), ("Set-Cookie", cc)]⟩ = [cc] := by
  have h1 : lowerStr "Location" = "location" := by decide
  have h2 : lowerStr "Set-Cookie" = "set-cookie" := by decide
  simp [setCookies, h1, h2]

/-- Whenever `validateOAuthState` succeeds, the clear-cookie directive it
returns is the fixed clearing string. -/
theorem validateOAuthState_ok_clear {P : JsPrims} {req : RequestM} {kv : KV} {now : Nat}
    {r : AuthRequest × String} (h : (validateOAuthState P req kv now).1 = .ok r) :
    r.2 = clearSessionCookieStr := by
  cases hq : jsFalsy (queryGet req "state") with
  | true => simp [validateOAuthState, hq] at h
  | false =>
    cases hc : jsFalsy (getRecord (parseCookies req.cookieHeader) "__Host-session") with
    | true => simp [validateOAuthState, hq, hc] at h
    | false =>
      by_cases hm : getRecord (parseCookies req.cookieHeader) "__Host-session"
          ≠ some (P.sha256 ((queryGet req "state").getD ""))
      · simp [validateOAuthState, hq, hc, hm] at h
      · rw [not_not] at hm
        have hc2 : jsFalsy (some (P.sha256 ((queryGet req "state").getD ""))) = false :=
          hm ▸ hc
        cases hg : jsFalsy (kvGet kv now ("oauth_state:" ++ (queryGet req "state").getD "")) with
        | true => simp [validateOAuthState, hq, hc2, hm, hg] at h
        | false =>
          cases hp : P.parseAuth ((kvGet kv now
              ("oauth_state:" ++ (queryGet req "state").getD "")).getD "") with
          | none => simp [validateOAuthState, hq, hc2, hm, hg, hp] at h
          | some a =>
            simp [validateOAuthState, hq, hc2, hm, hg, hp] at h
            rw [← h]

/-- C1 (amended): a `/callback` response either is the successful 302
completion carrying exactly the clearing `Set-Cookie` directive, or
carries no `Set-Cookie` header at all. In particular no failure response
(missing session cookie, session binding mismatch, missing or expired
state, corrupt state, missing code, IdP exchange failure, profile fetch
failure, account not linked) clears the `__Host-session` cookie. -/
theorem c1_set_cookie_only_on_success (P : JsPrims) (E : CallbackEnv) (req : RequestM)
    (kv : KV) (now : Nat) :
    ((callbackHandler P E req kv now).1.status = 302 ∧
      setCookies (callbackHandler P E req kv now).1 = [clearSessionCookieStr]) ∨
    setCookies (callbackHandler P E req kv now).1 = [] := by
  rcases hv : validateOAuthState P req kv now with ⟨r, kv2⟩
  cases r with
  | error e =>
    cases e with
    | oauth e0 =>
      right
      simp [callbackHandler, hv, OAuthError.toResponse, setCookies_nil]
    | js m =>
      right
      simp [callbackHandler, hv, textResponse, setCookies_nil]
  | ok pr =>
    have hclear : pr.2 = clearSessionCookieStr := by
      apply validateOAuthState_ok_clear (r := pr)
      rw [hv]
    rcases pr with ⟨info, cc⟩
    simp only at hclear
    subst hclear
    by_cases hcid : info.clientId = ""
    · right
      simp [callbackHandler, hv, hcid, textResponse, setCookies_nil]
    · cases hcode : jsFalsy (queryGet req "code") with
      | true =>
        right
        simp [callbackHandler, hv, hcid, hcode, textResponse, setCookies_nil]
      | false =>
        cases htok : E.lineTokenHttp ((queryGet req "code").getD "") with
        | httpErr =>
          right
          simp [callbackHandler, hv, hcid, hcode, fetchLineToken, htok, setCookies_nil]
        | noToken =>
          right
          simp [callbackHandler, hv, hcid, hcode, fetchLineToken, htok, setCookies_nil]
        | ok tok =>
          cases hprof : E.lineProfile tok with
          | none =>
            right
            simp [callbackHandler, hv, hcid, hcode, fetchLineToken, htok, hprof,
              textResponse, setCookies_nil]
          | some prof =>
            cases hsign : signInWithLineId E prof.userId with
            | none =>
              right
              simp [callbackHandler, hv, hcid, hcode, fetchLineToken, htok, hprof, hsign,
                setCookies_nil]
            | some uid =>
              left
              have hccne : ¬ clearSessionCookieStr = "" := by decide
              simp [callbackHandler, hv, hcid, hcode, fetchLineToken, htok, hprof, hsign,
                hccne, setCookies_redirect]

/-- C1 counterexample: the session-binding-mismatch failure — the very
scenario the claim's spec sources give — returns its 403 response with
no `Set-Cookie` header at all: the error response does not clear the
`__Host-session` cookie. -/
theorem c1_counterexample :
    callbackHandler PW EW
      { query := [("state", "t"), ("code", "c")], cookieHeader := "__Host-session=WRONG", form := [] }
      [] 0
      = (⟨403, "Session binding mismatch", []⟩, [], false) ∧
    setCookies (callbackHandler PW EW
      { query := [("state", "t"), ("code", "c")], cookieHeader := "__Host-session=WRONG", form := [] }
      [] 0).1 = [] := by
  exact ⟨by decide, by decide⟩

/-- Reading the `__Host-approved` cookie back from a single-pair header. -/
theorem getApproved_single {P : JsPrims} {raw secret : String}
    (hne : raw ≠ "") (hsafe : cookieSafe raw = true) :
    getApprovedClientsFromCookie P ("__Host-approved=" ++ raw) secret =
      (match P.decodeURIComponent raw with
       | none => .error "URI malformed"
       | some decoded =>
         match splitAtLastPipe decoded with
         | none => .ok (.arr [])
         | some (data, signature) =>
           if P.hmacHex secret data ≠ signature then .ok (.arr [])
           else
             match P.parseList data with
             | none => .ok (.arr [])
             | some v => .ok v) := by
  unfold getApprovedClientsFromCookie
  rw [show ("__Host-approved=" ++ raw) = "__Host-approved" ++ "=" ++ raw from rfl,
      parseCookies_single (by decide) (by decide) hsafe, getRecord_singleton]
  simp [jsFalsy_some_eq_false hne]

theorem cookiePairOfSetCookie_approved {enc : String} (hsafe : cookieSafe enc = true) :
    cookiePairOfSetCookie ("__Host-approved=" ++ enc ++
        "; HttpOnly; Secure; SameSite=Lax; Path=/; Max-Age=31536000")
      = "__Host-approved=" ++ enc := by
  rw [show "__Host-approved=" ++ enc ++ "; HttpOnly; Secure; SameSite=Lax; Path=/; Max-Age=31536000"
      = ("__Host-approved=" ++ enc) ++ "; HttpOnly; Secure; SameSite=Lax; Path=/; Max-Age=31536000"
      from rfl]
  apply cookiePairOfSetCookie_append
  · intro x hx
    rw [string_toList_append] at hx
    rcases List.mem_append.mp hx with hx1 | hx2
    · have hall : ∀ y ∈ ("__Host-approved=" : String).toList, y ≠ ';' := by decide
      exact hall x hx1
    · exact (cookieSafe_mem hsafe x hx2).2.1
  · exact ⟨(" HttpOnly; Secure; SameSite=Lax; Path=/; Max-Age=31536000" : String).toList, rfl⟩

/-- C5 (amended): (a) `addApprovedClient` followed by presenting the
cookie it returns makes `isClientApproved` return `true` for that client
id. For any presented cookie whose value is well-formed
percent-encoding: (b) a MAC that does not verify yields `false` without
throwing; (c) a value with no pipe separator yields `false` without
throwing; (d) a MAC-valid value whose data fails to `JSON.parse` yields
`false` without throwing (the caught parse failure is an empty approval
list). The original "never throws" is false twice over: a malformed
percent-encoding throws an uncaught `URIError` (the counterexample),
and (e) MAC-valid data that parses to a non-array, non-string JSON
value throws a TypeError at `approved.includes`. -/
theorem c5_approval_cookie (P : JsPrims) (clientId secret priorCookie : String)
    (l l2 : List String) (data sig enc : String)
    (h : getApprovedClientsFromCookie P priorCookie secret = .ok (.arr l) ∧
      l2 = (if l.contains clientId then l else l ++ [clientId]) ∧
      data = P.stringifyList l2 ∧
      sig = P.hmacHex secret data ∧
      enc = P.encodeURIComponent (data ++ "|" ++ sig) ∧
      cookieSafe enc = true ∧ enc ≠ "" ∧
      P.decodeURIComponent enc = some (data ++ "|" ++ sig) ∧
      '|' ∉ sig.toList ∧
      P.parseList data = some (.arr l2)) :
    (addApprovedClient P priorCookie clientId secret
        = .ok ("__Host-approved=" ++ enc ++
            "; HttpOnly; Secure; SameSite=Lax; Path=/; Max-Age=31536000") ∧
      isClientApproved P
        (cookiePairOfSetCookie ("__Host-approved=" ++ enc ++
          "; HttpOnly; Secure; SameSite=Lax; Path=/; Max-Age=31536000"))
        clientId secret = .ok true) ∧
    (∀ raw decoded d s,
      (raw ≠ "" ∧ cookieSafe raw = true ∧ P.decodeURIComponent raw = some decoded ∧
        splitAtLastPipe decoded = some (d, s) ∧ P.hmacHex secret d ≠ s) →
      isClientApproved P ("__Host-approved=" ++ raw) clientId secret = .ok false) ∧
    (∀ raw decoded,
      (raw ≠ "" ∧ cookieSafe raw = true ∧ P.decodeURIComponent raw = some decoded ∧
        splitAtLastPipe decoded = none) →
      isClientApproved P ("__Host-approved=" ++ raw) clientId secret = .ok false) ∧
    (∀ raw decoded d s,
      (raw ≠ "" ∧ cookieSafe raw = true ∧ P.decodeURIComponent raw = some decoded ∧
        splitAtLastPipe decoded = some (d, s) ∧ P.hmacHex secret d = s ∧
        P.parseList d = none) →
      isClientApproved P ("__Host-approved=" ++ raw) clientId secret = .ok false) ∧
    (∀ raw decoded d s,
      (raw ≠ "" ∧ cookieSafe raw = true ∧ P.decodeURIComponent raw = some decoded ∧
        splitAtLastPipe decoded = some (d, s) ∧ P.hmacHex secret d = s ∧
        P.parseList d = some .other) →
      isClientApproved P ("__Host-approved=" ++ raw) clientId secret
        = .error "approved.includes is not a function") := by
  obtain ⟨hprior, hl2, hdata, hsig, henc, hsafe, hence, hdec, hpipe, hparse⟩ := h
  subst hl2 hdata hsig henc
  refine ⟨⟨?_, ?_⟩, ?_, ?_, ?_, ?_⟩
  · simp [addApprovedClient, hprior]
  · rw [cookiePairOfSetCookie_approved hsafe]
    unfold isClientApproved
    rw [getApproved_single hence hsafe]
    simp only [hdec, splitAtLastPipe_append hpipe, hparse]
    by_cases hmem : clientId ∈ l
    · simp [jsIncludes, hmem]
    · simp [jsIncludes, hmem]
  · rintro raw decoded d s ⟨hne2, hsafe2, hdec2, hsp2, hmac2⟩
    unfold isClientApproved
    rw [getApproved_single hne2 hsafe2]
    simp only [hdec2, hsp2]
    simp [jsIncludes, hmac2]
  · rintro raw decoded ⟨hne3, hsafe3, hdec3, hsp3⟩
    unfold isClientApproved
    rw [getApproved_single hne3 hsafe3]
    simp only [hdec3, hsp3]
    simp [jsIncludes]
  · rintro raw decoded d s ⟨hne4, hsafe4, hdec4, hsp4, hmac4, hp4⟩
    unfold isClientApproved
    rw [getApproved_single hne4 hsafe4]
    simp only [hdec4, hsp4]
    simp [jsIncludes, hmac4, hp4]
  · rintro raw decoded d s ⟨hne5, hsafe5, hdec5, hsp5, hmac5, hp5⟩
    unfold isClientApproved
    rw [getApproved_single hne5 hsafe5]
    simp only [hdec5, hsp5]
    simp [jsIncludes, hmac5, hp5]

/-- C5 counterexample: a `__Host-approved` cookie whose value is the
malformed percent-encoding `"%"` does not make `isClientApproved` return
`false`: `decodeURIComponent` throws a `URIError` that nothing catches,
refuting "returns false without throwing on any parse failure". -/
theorem c5_counterexample :
    isClientApproved PW5 "__Host-approved=%" "client-1" "sec" = .error "URI malformed" ∧
    (∀ b, isClientApproved PW5 "__Host-approved=%" "client-1" "sec" ≠ .ok b) := by
  refine ⟨by decide, ?_⟩
  intro b
  cases b <;> decide

/-- Witness for C5's amended theorem at concrete inputs, exercising the
approve-then-present path, a MAC failure, a pipeless value, a parse
failure, and the TypeError path. -/
theorem c5_witness :
    (getApprovedClientsFromCookie PW "" "sec" = .ok (.arr []) ∧
      (["client-1"] : List String)
        = (if List.contains [] "client-1" then [] else [] ++ ["client-1"]) ∧
      ("client-1" : String) = PW.stringifyList ["client-1"] ∧
      ("msec" : String) = PW.hmacHex "sec" "client-1" ∧
      ("client-1|msec" : String) = PW.encodeURIComponent ("client-1" ++ "|" ++ "msec") ∧
      cookieSafe "client-1|msec" = true ∧ ("client-1|msec" : String) ≠ "" ∧
      PW.decodeURIComponent "client-1|msec" = some ("client-1" ++ "|" ++ "msec") ∧
      '|' ∉ ("msec" : String).toList ∧
      PW.parseList "client-1" = some (.arr ["client-1"])) ∧
    (addApprovedClient PW "" "client-1" "sec"
        = .ok ("__Host-approved=" ++ "client-1|msec" ++
            "; HttpOnly; Secure; SameSite=Lax; Path=/; Max-Age=31536000") ∧
      isClientApproved PW
        (cookiePairOfSetCookie ("__Host-approved=" ++ "client-1|msec" ++
          "; HttpOnly; Secure; SameSite=Lax; Path=/; Max-Age=31536000"))
        "client-1" "sec" = .ok true) ∧
    isClientApproved PW ("__Host-approved=" ++ "x|ff") "client-1" "sec" = .ok false ∧
    isClientApproved PW ("__Host-approved=" ++ "nopipe") "client-1" "sec" = .ok false ∧
    isClientApproved PW ("__Host-approved=" ++ "j|msec") "client-1" "sec" = .ok false ∧
    isClientApproved PW ("__Host-approved=" ++ "num|msec") "client-1" "sec"
      = .error "approved.includes is not a function" := by
  have h := c5_approval_cookie PW "client-1" "sec" "" [] ["client-1"] "client-1" "msec"
    "client-1|msec" (by decide)
  refine ⟨by decide, h.1, ?_, ?_, ?_, ?_⟩
  · exact h.2.1 "x|ff" "x|ff" "x" "ff" (by decide)
  · exact h.2.2.1 "nopipe" "nopipe" (by decide)
  · exact h.2.2.2.1 "j|msec" "j|msec" "j" "msec" (by decide)
  · exact h.2.2.2.2 "num|msec" "num|msec" "num" "msec" (by decide)

theorem setCookies_post (b url : String) :
    setCookies ⟨302, "", [("set-cookie", b), ("Location", url)]⟩ = [b] := by
  have h1 : lowerStr "set-cookie" = "set-cookie" := by decide
  have h2 : lowerStr "Location" = "location" := by decide
  simp [setCookies, h1, h2]

theorem setCookies_dialog (body sc : String) :
    setCookies ⟨200, body, [("Content-Type", "text/html; charset=utf-8"), ("Set-Cookie", sc)]⟩
      = [sc] := by
  have h1 : lowerStr "Content-Type" = "content-type" := by decide
  have h2 : lowerStr "Set-Cookie" = "set-cookie" := by decide
  simp [setCookies, h1, h2]

/-- The consent page's body carries the CSRF token and the encoded pending
authorization as the two hidden form-field values. -/
theorem consentHtml_decompose (lp cn sn sd ct es : String) :
    ∃ pre mid suf, consentHtml lp cn sn sd ct es = pre ++ ct ++ mid ++ es ++ suf := by
  refine ⟨consentHtmlP1 ++ lp ++ consentHtmlP2 ++ sn ++ consentHtmlP3 ++ sd ++
    consentHtmlP4 ++ cn ++ consentHtmlP5, consentHtmlP6, consentHtmlP7, ?_⟩
  simp [consentHtml, String.append_assoc]

/-- C7 (amended): a `POST /authorize` with matching CSRF token and a
well-formed round-tripped state responds 302 with `Location` the IdP
authorize URL carrying the newly generated state token and with exactly
ONE `Set-Cookie` header — the session-binding cookie. The appended
approval cookie is lost when the `Headers` object is converted through
`Object.fromEntries` (duplicate `set-cookie` entries collapse, last
value wins), so the response does not carry three `Set-Cookie` headers. -/
theorem c7_post_authorize_success (P : JsPrims) (A : AuthorizeEnv) (req : RequestM)
    (kv : KV) (now : Nat) (s es apc : String) (info : AuthRequest)
    (hform : formGet req.form "csrf_token" = some (.str s)) (hs : s ≠ "")
    (hck : getRecord (parseCookies req.cookieHeader) "__Host-csrf" = some s)
    (hstate : formGet req.form "state" = some (.str es)) (hes : ¬ es = "")
    (hdecs : P.decodeStateForm es = some (some info))
    (hcid : ¬ info.clientId = "")
    (hadd : addApprovedClient P req.cookieHeader info.clientId A.cookieKey = .ok apc) :
    authorizePostHandler P A req kv now
      = (⟨302, "",
          [("set-cookie", bindStateToSession P A.newStateToken),
           ("Location", getLineAuthorizeUrl P.formUrlEncode A.channelId A.callbackUrl
             A.newStateToken)]⟩,
         kvPut kv now 600 ("oauth_state:" ++ A.newStateToken) (P.stringifyAuth info)) ∧
    setCookies (authorizePostHandler P A req kv now).1
      = [bindStateToSession P A.newStateToken] := by
  have hcsrf : validateCSRFToken req.form req.cookieHeader = .ok () := by
    simp [validateCSRFToken, hform, hs, hck, jsFalsy_some_eq_false hs]
  have hmain : authorizePostHandler P A req kv now
      = (⟨302, "",
          [("set-cookie", bindStateToSession P A.newStateToken),
           ("Location", getLineAuthorizeUrl P.formUrlEncode A.channelId A.callbackUrl
             A.newStateToken)]⟩,
         kvPut kv now 600 ("oauth_state:" ++ A.newStateToken) (P.stringifyAuth info)) := by
    simp [authorizePostHandler, hcsrf, hstate, hes, hdecs, hcid, hadd,
      fromEntriesLastWins, setRecord, redirectToLine, createOAuthState]
  refine ⟨hmain, ?_⟩
  rw [hmain]
  exact setCookies_post _ _

/-- C7 counterexample: a concrete successful `POST /authorize` run carries
exactly ONE `Set-Cookie` header (the session-binding cookie), not the
three the claim requires — and the approval cookie is not among the
`Set-Cookie` values at all. -/
theorem c7_counterexample :
    (authorizePostHandler PW AW
      { query := [], cookieHeader := "__Host-csrf=tok",
        form := [("csrf_token", FormVal.str "tok"), ("state", FormVal.str "Bclient-1")] }
      [] 0).1.status = 302 ∧
    setCookies (authorizePostHandler PW AW
      { query := [], cookieHeader := "__Host-csrf=tok",
        form := [("csrf_token", FormVal.str "tok"), ("state", FormVal.str "Bclient-1")] }
      [] 0).1 = [bindStateToSession PW "newtok"] ∧
    (setCookies (authorizePostHandler PW AW
      { query := [], cookieHeader := "__Host-csrf=tok",
        form := [("csrf_token", FormVal.str "tok"), ("state", FormVal.str "Bclient-1")] }
      [] 0).1).length ≠ 3 := by
  exact ⟨by decide, by decide, by decide⟩

/-- Witness for C7's amended theorem at concrete inputs. -/
theorem c7_witness :
    (formGet [("csrf_token", FormVal.str "tok"), ("state", FormVal.str "Bclient-1")]
        "csrf_token" = some (.str "tok") ∧ ("tok" : String) ≠ "" ∧
      getRecord (parseCookies "__Host-csrf=tok") "__Host-csrf" = some "tok" ∧
      formGet [("csrf_token", FormVal.str "tok"), ("state", FormVal.str "Bclient-1")]
        "state" = some (.str "Bclient-1") ∧ ¬ ("Bclient-1" : String) = "" ∧
      PW.decodeStateForm "Bclient-1" = some (some infoW) ∧ ¬ infoW.clientId = "" ∧
      addApprovedClient PW "__Host-csrf=tok" infoW.clientId AW.cookieKey
        = .ok ("__Host-approved=" ++ "client-1|msec" ++
            "; HttpOnly; Secure; SameSite=Lax; Path=/; Max-Age=31536000")) ∧
    (authorizePostHandler PW AW
      { query := [], cookieHeader := "__Host-csrf=tok",
        form := [("csrf_token", FormVal.str "tok"), ("state", FormVal.str "Bclient-1")] }
      [] 0
      = (⟨302, "",
          [("set-cookie", bindStateToSession PW AW.newStateToken),
           ("Location", getLineAuthorizeUrl PW.formUrlEncode AW.channelId AW.callbackUrl
             AW.newStateToken)]⟩,
         kvPut [] 0 600 ("oauth_state:" ++ AW.newStateToken) (PW.stringifyAuth infoW)) ∧
     setCookies (authorizePostHandler PW AW
      { query := [], cookieHeader := "__Host-csrf=tok",
        form := [("csrf_token", FormVal.str "tok"), ("state", FormVal.str "Bclient-1")] }
      [] 0).1 = [bindStateToSession PW AW.newStateToken]) := by
  refine ⟨?_,
    c7_post_authorize_success PW AW
      { query := [], cookieHeader := "__Host-csrf=tok",
        form := [("csrf_token", FormVal.str "tok"), ("state", FormVal.str "Bclient-1")] }
      [] 0 "tok" "Bclient-1"
      ("__Host-approved=" ++ "client-1|msec" ++
        "; HttpOnly; Secure; SameSite=Lax; Path=/; Max-Age=31536000") infoW
      ?_ ?_ ?_ ?_ ?_ ?_ ?_ ?_⟩ <;>
    decide

/-- C8: `GET /authorize` branches as specified. With the client already in
the approval cookie (`req1`), the handler persists the pending
authorization in the store, binds the session, and responds 302
straight to the IdP authorize URL with the session-binding cookie
attached — no consent page. Otherwise (`req2`) it responds with the
consent dialog: a 200 whose only `Set-Cookie` is the CSRF cookie and
whose body carries the CSRF token and the opaquely encoded pending
authorization, while the state store is left untouched. -/
theorem c8_get_authorize_branches (P : JsPrims) (A : AuthorizeEnv) (req1 req2 : RequestM)
    (kv : KV) (now : Nat)
    (hcid1 : ¬ (A.parseAuthRequest req1).clientId = "")
    (happr : isClientApproved P req1.cookieHeader (A.parseAuthRequest req1).clientId
      A.cookieKey = .ok true)
    (hcid2 : ¬ (A.parseAuthRequest req2).clientId = "")
    (hnappr : isClientApproved P req2.cookieHeader (A.parseAuthRequest req2).clientId
      A.cookieKey = .ok false) :
    authorizeGetHandler P A req1 kv now
      = .ok (⟨302, "",
          [("Set-Cookie", bindStateToSession P A.newStateToken),
           ("Location", getLineAuthorizeUrl P.formUrlEncode A.channelId A.callbackUrl
             A.newStateToken)]⟩,
         kvPut kv now 600 ("oauth_state:" ++ A.newStateToken)
           (P.stringifyAuth (A.parseAuthRequest req1))) ∧
    (authorizeGetHandler P A req2 kv now
      = .ok (renderApprovalDialog P (A.lookupClient (A.parseAuthRequest req2).clientId)
          A.csrfToken "My MCP Server" "Your service description here" none
          ("__Host-csrf=" ++ A.csrfToken ++ "; HttpOnly; Secure; SameSite=Strict; Path=/")
          (A.parseAuthRequest req2), kv) ∧
      (renderApprovalDialog P (A.lookupClient (A.parseAuthRequest req2).clientId)
          A.csrfToken "My MCP Server" "Your service description here" none
          ("__Host-csrf=" ++ A.csrfToken ++ "; HttpOnly; Secure; SameSite=Strict; Path=/")
          (A.parseAuthRequest req2)).status = 200 ∧
      setCookies (renderApprovalDialog P (A.lookupClient (A.parseAuthRequest req2).clientId)
          A.csrfToken "My MCP Server" "Your service description here" none
          ("__Host-csrf=" ++ A.csrfToken ++ "; HttpOnly; Secure; SameSite=Strict; Path=/")
          (A.parseAuthRequest req2))
        = ["__Host-csrf=" ++ A.csrfToken ++ "; HttpOnly; Secure; SameSite=Strict; Path=/"] ∧
      (∃ pre mid suf,
        (renderApprovalDialog P (A.lookupClient (A.parseAuthRequest req2).clientId)
          A.csrfToken "My MCP Server" "Your service description here" none
          ("__Host-csrf=" ++ A.csrfToken ++ "; HttpOnly; Secure; SameSite=Strict; Path=/")
          (A.parseAuthRequest req2)).body
          = pre ++ A.csrfToken ++ mid ++ P.encodeStateForm (A.parseAuthRequest req2) ++ suf)) := by
  refine ⟨?_, ?_, ?_, ?_, ?_⟩
  · simp [authorizeGetHandler, hcid1, happr, createOAuthState, redirectToLine]
  · simp [authorizeGetHandler, hcid2, hnappr, generateCSRFProtection]
  · simp [renderApprovalDialog]
  · simp only [renderApprovalDialog]
    exact setCookies_dialog _ _
  · simp only [renderApprovalDialog]
    exact consentHtml_decompose _ _ _ _ _ _

/-- Witness for C8 at concrete inputs: a returning user presenting a valid
signed approval cookie, and a fresh user with no cookies. -/
theorem c8_witness :
    (¬ (AW.parseAuthRequest { query := [], cookieHeader := "__Host-approved=client-1|msec", form := [] }).clientId = "" ∧
      isClientApproved PW "__Host-approved=client-1|msec"
        (AW.parseAuthRequest { query := [], cookieHeader := "__Host-approved=client-1|msec", form := [] }).clientId
        AW.cookieKey = .ok true ∧
      ¬ (AW.parseAuthRequest { query := [], cookieHeader := "", form := [] }).clientId = "" ∧
      isClientApproved PW ""
        (AW.parseAuthRequest { query := [], cookieHeader := "", form := [] }).clientId
        AW.cookieKey = .ok false) ∧
    (authorizeGetHandler PW AW { query := [], cookieHeader := "__Host-approved=client-1|msec", form := [] } [] 0
      = .ok (⟨302, "",
          [("Set-Cookie", bindStateToSession PW AW.newStateToken),
           ("Location", getLineAuthorizeUrl PW.formUrlEncode AW.channelId AW.callbackUrl
             AW.newStateToken)]⟩,
         kvPut [] 0 600 ("oauth_state:" ++ AW.newStateToken)
           (PW.stringifyAuth (AW.parseAuthRequest { query := [], cookieHeader := "__Host-approved=client-1|msec", form := [] }))) ∧
     (authorizeGetHandler PW AW { query := [], cookieHeader := "", form := [] } [] 0
      = .ok (renderApprovalDialog PW
          (AW.lookupClient (AW.parseAuthRequest { query := [], cookieHeader := "", form := [] }).clientId)
          AW.csrfToken "My MCP Server" "Your service description here" none
          ("__Host-csrf=" ++ AW.csrfToken ++ "; HttpOnly; Secure; SameSite=Strict; Path=/")
          (AW.parseAuthRequest { query := [], cookieHeader := "", form := [] }), []) ∧
      (renderApprovalDialog PW
          (AW.lookupClient (AW.parseAuthRequest { query := [], cookieHeader := "", form := [] }).clientId)
          AW.csrfToken "My MCP Server" "Your service description here" none
          ("__Host-csrf=" ++ AW.csrfToken ++ "; HttpOnly; Secure; SameSite=Strict; Path=/")
          (AW.parseAuthRequest { query := [], cookieHeader := "", form := [] })).status = 200 ∧
      setCookies (renderApprovalDialog PW
          (AW.lookupClient (AW.parseAuthRequest { query := [], cookieHeader := "", form := [] }).clientId)
          AW.csrfToken "My MCP Server" "Your service description here" none
          ("__Host-csrf=" ++ AW.csrfToken ++ "; HttpOnly; Secure; SameSite=Strict; Path=/")
          (AW.parseAuthRequest { query := [], cookieHeader := "", form := [] }))
        = ["__Host-csrf=" ++ AW.csrfToken ++ "; HttpOnly; Secure; SameSite=Strict; Path=/"] ∧
      (∃ pre mid suf,
        (renderApprovalDialog PW
          (AW.lookupClient (AW.parseAuthRequest { query := [], cookieHeader := "", form := [] }).clientId)
          AW.csrfToken "My MCP Server" "Your service description here" none
          ("__Host-csrf=" ++ AW.csrfToken ++ "; HttpOnly; Secure; SameSite=Strict; Path=/")
          (AW.parseAuthRequest { query := [], cookieHeader := "", form := [] })).body
          = pre ++ AW.csrfToken ++ mid ++
            PW.encodeStateForm (AW.parseAuthRequest { query := [], cookieHeader := "", form := [] }) ++ suf))) := by
  refine ⟨?_,
    c8_get_authorize_branches PW AW
      { query := [], cookieHeader := "__Host-approved=client-1|msec", form := [] }
      { query := [], cookieHeader := "", form := [] } [] 0
      ?_ ?_ ?_ ?_⟩ <;>
    decide
